import Mathlib

/-!
Verification of the portable memory-mapped I/O primitives of
src/lib/support/io (io-base.h plus the little-endian and big-endian
accessor layers and the byte-order swap layer they are built on).

The machine model: memory is a byte-addressed store of natural numbers;
every store writes a byte reduced modulo 256 and every load reads a byte
reduced modulo 256.  A typed load or store of an n-byte unsigned scalar
on a given host is the assembly or disassembly of that scalar from its n
representation bytes in the host's byte order; memcpy between a scalar
and memory moves exactly those representation bytes.  Pointers are the
numeric values of addresses (the code inspects them only through the
uintptr cast in IoIsAligned and through byte-offset arithmetic).
Cursor-taking functions (const void ** / void **) are modelled in
state-passing style: they receive the memory and the cursor value and
return the produced value, the resulting memory, and the new cursor.
-/

/-- Byte-addressed memory: each address holds a byte (reads and writes
are reduced modulo 256 by the access primitives). -/
abbrev Mem := Nat → Nat

/-- The n least-significant-first representation bytes of a value. -/
def toBytesLE : Nat → Nat → List Nat
  | 0, _ => []
  | n + 1, v => v % 256 :: toBytesLE n (v / 256)

/-- Assemble a value from least-significant-first bytes. -/
def fromBytesLE : List Nat → Nat
  | [] => 0
  | b :: bs => b % 256 + 256 * fromBytesLE bs

/-- Read n consecutive bytes starting at address p. -/
def readBytes (mem : Mem) : Nat → Nat → List Nat
  | _, 0 => []
  | p, n + 1 => mem p % 256 :: readBytes mem (p + 1) n

/-- Write a list of bytes to consecutive addresses starting at p. -/
def writeBytes : Mem → Nat → List Nat → Mem
  | mem, _, [] => mem
  | mem, p, b :: bs => writeBytes (fun x => if x = p then b % 256 else mem x) (p + 1) bs

/-- Modelled from the spec: byteorder.h is not under src/ (only its unit
tests are).  MATTER_BYTEORDER is the compile-time host byte order; per
section 4.1 it is resolved once per build to little or big and is never
unknown at the point of use (the tests assert
MATTER_BYTEORDER != MATTER_BYTEORDER_UNKNOWN_ENDIAN). -/
inductive HostByteOrder
  | little
  | big
deriving DecidableEq

/-- Reverse the byte order of an n-byte value: output byte i is input
byte (n - 1 - i). -/
def bswap (n v : Nat) : Nat := fromBytesLE ((toBytesLE n v).reverse)

/-- Modelled from the spec: byteorder.h is not under src/.  SwapBytes16
reverses the byte order within a 16-bit value (section 4.1). -/
def ByteOrderValueSwap16 (v : Nat) : Nat := bswap 2 v

/-- Modelled from the spec: byteorder.h is not under src/.  SwapBytes32
reverses the byte order within a 32-bit value (section 4.1). -/
def ByteOrderValueSwap32 (v : Nat) : Nat := bswap 4 v

/-- Modelled from the spec: byteorder.h is not under src/.  SwapBytes64
reverses the byte order within a 64-bit value (section 4.1). -/
def ByteOrderValueSwap64 (v : Nat) : Nat := bswap 8 v

/-- Modelled from the spec: identity if the host is little-endian, else
a byte swap (section 4.1). -/
@[simp] def ByteOrderSwap16LittleToHost (h : HostByteOrder) (v : Nat) : Nat :=
  match h with
  | .little => v
  | .big => ByteOrderValueSwap16 v

/-- Modelled from the spec: identity if the host is little-endian, else
a byte swap (section 4.1). -/
@[simp] def ByteOrderSwap16HostToLittle (h : HostByteOrder) (v : Nat) : Nat :=
  match h with
  | .little => v
  | .big => ByteOrderValueSwap16 v

/-- Modelled from the spec: identity if the host is big-endian, else a
byte swap (section 4.1). -/
@[simp] def ByteOrderSwap16BigToHost (h : HostByteOrder) (v : Nat) : Nat :=
  match h with
  | .little => ByteOrderValueSwap16 v
  | .big => v

/-- Modelled from the spec: identity if the host is big-endian, else a
byte swap (section 4.1). -/
@[simp] def ByteOrderSwap16HostToBig (h : HostByteOrder) (v : Nat) : Nat :=
  match h with
  | .little => ByteOrderValueSwap16 v
  | .big => v

/-- Modelled from the spec: identity if the host is little-endian, else
a byte swap (section 4.1). -/
@[simp] def ByteOrderSwap32LittleToHost (h : HostByteOrder) (v : Nat) : Nat :=
  match h with
  | .little => v
  | .big => ByteOrderValueSwap32 v

/-- Modelled from the spec: identity if the host is little-endian, else
a byte swap (section 4.1). -/
@[simp] def ByteOrderSwap32HostToLittle (h : HostByteOrder) (v : Nat) : Nat :=
  match h with
  | .little => v
  | .big => ByteOrderValueSwap32 v

/-- Modelled from the spec: identity if the host is big-endian, else a
byte swap (section 4.1). -/
@[simp] def ByteOrderSwap32BigToHost (h : HostByteOrder) (v : Nat) : Nat :=
  match h with
  | .little => ByteOrderValueSwap32 v
  | .big => v

/-- Modelled from the spec: identity if the host is big-endian, else a
byte swap (section 4.1). -/
@[simp] def ByteOrderSwap32HostToBig (h : HostByteOrder) (v : Nat) : Nat :=
  match h with
  | .little => ByteOrderValueSwap32 v
  | .big => v

/-- Modelled from the spec: identity if the host is little-endian, else
a byte swap (section 4.1). -/
@[simp] def ByteOrderSwap64LittleToHost (h : HostByteOrder) (v : Nat) : Nat :=
  match h with
  | .little => v
  | .big => ByteOrderValueSwap64 v

/-- Modelled from the spec: identity if the host is little-endian, else
a byte swap (section 4.1). -/
@[simp] def ByteOrderSwap64HostToLittle (h : HostByteOrder) (v : Nat) : Nat :=
  match h with
  | .little => v
  | .big => ByteOrderValueSwap64 v

/-- Modelled from the spec: identity if the host is big-endian, else a
byte swap (section 4.1). -/
@[simp] def ByteOrderSwap64BigToHost (h : HostByteOrder) (v : Nat) : Nat :=
  match h with
  | .little => ByteOrderValueSwap64 v
  | .big => v

/-- Modelled from the spec: identity if the host is big-endian, else a
byte swap (section 4.1). -/
@[simp] def ByteOrderSwap64HostToBig (h : HostByteOrder) (v : Nat) : Nat :=
  match h with
  | .little => ByteOrderValueSwap64 v
  | .big => v

/-- The representation bytes of an n-byte scalar in host byte order. -/
def hostBytesOfScalar (h : HostByteOrder) (n v : Nat) : List Nat :=
  match h with
  | .little => toBytesLE n v
  | .big => (toBytesLE n v).reverse

/-- The scalar whose representation bytes, in host byte order, are the
given list. -/
def hostScalarOfBytes (h : HostByteOrder) (bs : List Nat) : Nat :=
  match h with
  | .little => fromBytesLE bs
  | .big => fromBytesLE bs.reverse

/-! The base access layer of io-base.h.  An aligned get/put is a direct
typed dereference; an unaligned get/put copies the scalar's
representation bytes through a temporary with memcpy; both therefore
move the scalar's host-order representation bytes.  Every function takes
the host byte order and the memory explicitly. -/

/-- IoIsAligned: the pointer's numeric value masked by size - 1 is zero
(io-base.h line 66). -/
def IoIsAligned (p size : Nat) : Bool := (p &&& (size - 1)) == 0

/-- Aligned typed load of a uint8_t (io-base.h line 82). -/
@[simp] def IoGetAligned8 (h : HostByteOrder) (mem : Mem) (p : Nat) : Nat :=
  hostScalarOfBytes h (readBytes mem p 1)

/-- Aligned typed load of a uint16_t (io-base.h line 95). -/
@[simp] def IoGetAligned16 (h : HostByteOrder) (mem : Mem) (p : Nat) : Nat :=
  hostScalarOfBytes h (readBytes mem p 2)

/-- Aligned typed load of a uint32_t (io-base.h line 108). -/
@[simp] def IoGetAligned32 (h : HostByteOrder) (mem : Mem) (p : Nat) : Nat :=
  hostScalarOfBytes h (readBytes mem p 4)

/-- Aligned typed load of a uint64_t (io-base.h line 121). -/
@[simp] def IoGetAligned64 (h : HostByteOrder) (mem : Mem) (p : Nat) : Nat :=
  hostScalarOfBytes h (readBytes mem p 8)

/-- Unaligned 8-bit load: forwards to the aligned form (io-base.h line 134). -/
@[simp] def IoGetUnaligned8 (h : HostByteOrder) (mem : Mem) (p : Nat) : Nat :=
  IoGetAligned8 h mem p

/-- Unaligned 16-bit load: memcpy two bytes into a temporary uint16_t
and return it (io-base.h line 147). -/
@[simp] def IoGetUnaligned16 (h : HostByteOrder) (mem : Mem) (p : Nat) : Nat :=
  hostScalarOfBytes h (readBytes mem p 2)

/-- Unaligned 32-bit load: memcpy four bytes into a temporary uint32_t
and return it (io-base.h line 164). -/
@[simp] def IoGetUnaligned32 (h : HostByteOrder) (mem : Mem) (p : Nat) : Nat :=
  hostScalarOfBytes h (readBytes mem p 4)

/-- Unaligned 64-bit load: memcpy eight bytes into a temporary uint64_t
and return it (io-base.h line 181). -/
@[simp] def IoGetUnaligned64 (h : HostByteOrder) (mem : Mem) (p : Nat) : Nat :=
  hostScalarOfBytes h (readBytes mem p 8)

/-- Maybe-aligned 8-bit load: always the aligned form (io-base.h line 199). -/
@[simp] def IoGetMaybeAligned8 (h : HostByteOrder) (mem : Mem) (p : Nat) : Nat :=
  IoGetAligned8 h mem p

/-- Maybe-aligned 16-bit load: alignment-tested dispatch (io-base.h line 213). -/
@[simp] def IoGetMaybeAligned16 (h : HostByteOrder) (mem : Mem) (p : Nat) : Nat :=
  if IoIsAligned p 2 then IoGetAligned16 h mem p else IoGetUnaligned16 h mem p

/-- Maybe-aligned 32-bit load: alignment-tested dispatch (io-base.h line 230). -/
@[simp] def IoGetMaybeAligned32 (h : HostByteOrder) (mem : Mem) (p : Nat) : Nat :=
  if IoIsAligned p 4 then IoGetAligned32 h mem p else IoGetUnaligned32 h mem p

/-- Maybe-aligned 64-bit load: alignment-tested dispatch (io-base.h line 247). -/
@[simp] def IoGetMaybeAligned64 (h : HostByteOrder) (mem : Mem) (p : Nat) : Nat :=
  if IoIsAligned p 8 then IoGetAligned64 h mem p else IoGetUnaligned64 h mem p

/-- Aligned typed store of a uint8_t (io-base.h line 264). -/
@[simp] def IoPutAligned8 (h : HostByteOrder) (mem : Mem) (p v : Nat) : Mem :=
  writeBytes mem p (hostBytesOfScalar h 1 v)

/-- Aligned typed store of a uint16_t (io-base.h line 278). -/
@[simp] def IoPutAligned16 (h : HostByteOrder) (mem : Mem) (p v : Nat) : Mem :=
  writeBytes mem p (hostBytesOfScalar h 2 v)

/-- Aligned typed store of a uint32_t (io-base.h line 292). -/
@[simp] def IoPutAligned32 (h : HostByteOrder) (mem : Mem) (p v : Nat) : Mem :=
  writeBytes mem p (hostBytesOfScalar h 4 v)

/-- Aligned typed store of a uint64_t (io-base.h line 306). -/
@[simp] def IoPutAligned64 (h : HostByteOrder) (mem : Mem) (p v : Nat) : Mem :=
  writeBytes mem p (hostBytesOfScalar h 8 v)

/-- Unaligned 8-bit store: forwards to the aligned form (io-base.h line 320). -/
@[simp] def IoPutUnaligned8 (h : HostByteOrder) (mem : Mem) (p v : Nat) : Mem :=
  IoPutAligned8 h mem p v

/-- Unaligned 16-bit store: memcpy the two representation bytes of v
(io-base.h line 334). -/
@[simp] def IoPutUnaligned16 (h : HostByteOrder) (mem : Mem) (p v : Nat) : Mem :=
  writeBytes mem p (hostBytesOfScalar h 2 v)

/-- Unaligned 32-bit store: memcpy the four representation bytes of v
(io-base.h line 348). -/
@[simp] def IoPutUnaligned32 (h : HostByteOrder) (mem : Mem) (p v : Nat) : Mem :=
  writeBytes mem p (hostBytesOfScalar h 4 v)

/-- Unaligned 64-bit store: memcpy the eight representation bytes of v
(io-base.h line 362). -/
@[simp] def IoPutUnaligned64 (h : HostByteOrder) (mem : Mem) (p v : Nat) : Mem :=
  writeBytes mem p (hostBytesOfScalar h 8 v)

/-- Maybe-aligned 8-bit store: always the aligned form (io-base.h line 377). -/
@[simp] def IoPutMaybeAligned8 (h : HostByteOrder) (mem : Mem) (p v : Nat) : Mem :=
  IoPutAligned8 h mem p v

/-- Maybe-aligned 16-bit store: alignment-tested dispatch (io-base.h line 392). -/
@[simp] def IoPutMaybeAligned16 (h : HostByteOrder) (mem : Mem) (p v : Nat) : Mem :=
  if IoIsAligned p 2 then IoPutAligned16 h mem p v else IoPutUnaligned16 h mem p v

/-- Maybe-aligned 32-bit store: alignment-tested dispatch (io-base.h line 410). -/
@[simp] def IoPutMaybeAligned32 (h : HostByteOrder) (mem : Mem) (p v : Nat) : Mem :=
  if IoIsAligned p 4 then IoPutAligned32 h mem p v else IoPutUnaligned32 h mem p v

/-- Maybe-aligned 64-bit store: alignment-tested dispatch (io-base.h line 428). -/
@[simp] def IoPutMaybeAligned64 (h : HostByteOrder) (mem : Mem) (p v : Nat) : Mem :=
  if IoIsAligned p 8 then IoPutAligned64 h mem p v else IoPutUnaligned64 h mem p v

/-! Cursor-advancing read/write forms of io-base.h.  A read returns the
value, the (untouched) memory, and the advanced cursor; a write returns
the new memory and the advanced cursor. -/

/-- IoReadAligned8 (io-base.h line 446): get at the cursor, advance by 1. -/
@[simp] def IoReadAligned8 (h : HostByteOrder) (mem : Mem) (p : Nat) : Nat × Mem × Nat :=
  (IoGetAligned8 h mem p, mem, p + 1)

/-- IoReadAligned16 (io-base.h line 465): get at the cursor, advance by 2. -/
@[simp] def IoReadAligned16 (h : HostByteOrder) (mem : Mem) (p : Nat) : Nat × Mem × Nat :=
  (IoGetAligned16 h mem p, mem, p + 2)

/-- IoReadAligned32 (io-base.h line 484): get at the cursor, advance by 4. -/
@[simp] def IoReadAligned32 (h : HostByteOrder) (mem : Mem) (p : Nat) : Nat × Mem × Nat :=
  (IoGetAligned32 h mem p, mem, p + 4)

/-- IoReadAligned64 (io-base.h line 503): get at the cursor, advance by 8. -/
@[simp] def IoReadAligned64 (h : HostByteOrder) (mem : Mem) (p : Nat) : Nat × Mem × Nat :=
  (IoGetAligned64 h mem p, mem, p + 8)

/-- IoReadUnaligned8 (io-base.h line 522). -/
@[simp] def IoReadUnaligned8 (h : HostByteOrder) (mem : Mem) (p : Nat) : Nat × Mem × Nat :=
  (IoGetUnaligned8 h mem p, mem, p + 1)

/-- IoReadUnaligned16 (io-base.h line 541). -/
@[simp] def IoReadUnaligned16 (h : HostByteOrder) (mem : Mem) (p : Nat) : Nat × Mem × Nat :=
  (IoGetUnaligned16 h mem p, mem, p + 2)

/-- IoReadUnaligned32 (io-base.h line 560). -/
@[simp] def IoReadUnaligned32 (h : HostByteOrder) (mem : Mem) (p : Nat) : Nat × Mem × Nat :=
  (IoGetUnaligned32 h mem p, mem, p + 4)

/-- IoReadUnaligned64 (io-base.h line 579). -/
@[simp] def IoReadUnaligned64 (h : HostByteOrder) (mem : Mem) (p : Nat) : Nat × Mem × Nat :=
  (IoGetUnaligned64 h mem p, mem, p + 8)

/-- IoReadMaybeAligned8 (io-base.h line 599). -/
@[simp] def IoReadMaybeAligned8 (h : HostByteOrder) (mem : Mem) (p : Nat) : Nat × Mem × Nat :=
  (IoGetMaybeAligned8 h mem p, mem, p + 1)

/-- IoReadMaybeAligned16 (io-base.h line 619). -/
@[simp] def IoReadMaybeAligned16 (h : HostByteOrder) (mem : Mem) (p : Nat) : Nat × Mem × Nat :=
  (IoGetMaybeAligned16 h mem p, mem, p + 2)

/-- IoReadMaybeAligned32 (io-base.h line 639). -/
@[simp] def IoReadMaybeAligned32 (h : HostByteOrder) (mem : Mem) (p : Nat) : Nat × Mem × Nat :=
  (IoGetMaybeAligned32 h mem p, mem, p + 4)

/-- IoReadMaybeAligned64 (io-base.h line 659). -/
@[simp] def IoReadMaybeAligned64 (h : HostByteOrder) (mem : Mem) (p : Nat) : Nat × Mem × Nat :=
  (IoGetMaybeAligned64 h mem p, mem, p + 8)

/-- IoWriteAligned8 (io-base.h line 678): put at the cursor, advance by 1. -/
@[simp] def IoWriteAligned8 (h : HostByteOrder) (mem : Mem) (p v : Nat) : Mem × Nat :=
  (IoPutAligned8 h mem p v, p + 1)

/-- IoWriteAligned16 (io-base.h line 693): put at the cursor, advance by 2. -/
@[simp] def IoWriteAligned16 (h : HostByteOrder) (mem : Mem) (p v : Nat) : Mem × Nat :=
  (IoPutAligned16 h mem p v, p + 2)

/-- IoWriteAligned32 (io-base.h line 708): put at the cursor, advance by 4. -/
@[simp] def IoWriteAligned32 (h : HostByteOrder) (mem : Mem) (p v : Nat) : Mem × Nat :=
  (IoPutAligned32 h mem p v, p + 4)

/-- IoWriteAligned64 (io-base.h line 723): put at the cursor, advance by 8. -/
@[simp] def IoWriteAligned64 (h : HostByteOrder) (mem : Mem) (p v : Nat) : Mem × Nat :=
  (IoPutAligned64 h mem p v, p + 8)

/-- IoWriteUnaligned8 (io-base.h line 738). -/
@[simp] def IoWriteUnaligned8 (h : HostByteOrder) (mem : Mem) (p v : Nat) : Mem × Nat :=
  (IoPutUnaligned8 h mem p v, p + 1)

/-- IoWriteUnaligned16 (io-base.h line 753). -/
@[simp] def IoWriteUnaligned16 (h : HostByteOrder) (mem : Mem) (p v : Nat) : Mem × Nat :=
  (IoPutUnaligned16 h mem p v, p + 2)

/-- IoWriteUnaligned32 (io-base.h line 768). -/
@[simp] def IoWriteUnaligned32 (h : HostByteOrder) (mem : Mem) (p v : Nat) : Mem × Nat :=
  (IoPutUnaligned32 h mem p v, p + 4)

/-- IoWriteUnaligned64 (io-base.h line 783). -/
@[simp] def IoWriteUnaligned64 (h : HostByteOrder) (mem : Mem) (p v : Nat) : Mem × Nat :=
  (IoPutUnaligned64 h mem p v, p + 8)

/-- IoWriteMaybeAligned8 (io-base.h line 800). -/
@[simp] def IoWriteMaybeAligned8 (h : HostByteOrder) (mem : Mem) (p v : Nat) : Mem × Nat :=
  (IoPutMaybeAligned8 h mem p v, p + 1)

/-- IoWriteMaybeAligned16 (io-base.h line 817). -/
@[simp] def IoWriteMaybeAligned16 (h : HostByteOrder) (mem : Mem) (p v : Nat) : Mem × Nat :=
  (IoPutMaybeAligned16 h mem p v, p + 2)

/-- IoWriteMaybeAligned32 (io-base.h line 834). -/
@[simp] def IoWriteMaybeAligned32 (h : HostByteOrder) (mem : Mem) (p v : Nat) : Mem × Nat :=
  (IoPutMaybeAligned32 h mem p v, p + 4)

/-- IoWriteMaybeAligned64 (io-base.h line 851). -/
@[simp] def IoWriteMaybeAligned64 (h : HostByteOrder) (mem : Mem) (p v : Nat) : Mem × Nat :=
  (IoPutMaybeAligned64 h mem p v, p + 8)

/-! Unqualified default forms of io-base.h: width 8 forwards to the
aligned form, widths 16/32/64 forward to the maybe-aligned form. -/

/-- IoGet8 (io-base.h line 864). -/
@[simp] def IoGet8 (h : HostByteOrder) (mem : Mem) (p : Nat) : Nat :=
  IoGetAligned8 h mem p

/-- IoGet16 (io-base.h line 878). -/
@[simp] def IoGet16 (h : HostByteOrder) (mem : Mem) (p : Nat) : Nat :=
  IoGetMaybeAligned16 h mem p

/-- IoGet32 (io-base.h line 892). -/
@[simp] def IoGet32 (h : HostByteOrder) (mem : Mem) (p : Nat) : Nat :=
  IoGetMaybeAligned32 h mem p

/-- IoGet64 (io-base.h line 906). -/
@[simp] def IoGet64 (h : HostByteOrder) (mem : Mem) (p : Nat) : Nat :=
  IoGetMaybeAligned64 h mem p

/-- IoPut8 (io-base.h line 920). -/
@[simp] def IoPut8 (h : HostByteOrder) (mem : Mem) (p v : Nat) : Mem :=
  IoPutAligned8 h mem p v

/-- IoPut16 (io-base.h line 935). -/
@[simp] def IoPut16 (h : HostByteOrder) (mem : Mem) (p v : Nat) : Mem :=
  IoPutMaybeAligned16 h mem p v

/-- IoPut32 (io-base.h line 950). -/
@[simp] def IoPut32 (h : HostByteOrder) (mem : Mem) (p v : Nat) : Mem :=
  IoPutMaybeAligned32 h mem p v

/-- IoPut64 (io-base.h line 965). -/
@[simp] def IoPut64 (h : HostByteOrder) (mem : Mem) (p v : Nat) : Mem :=
  IoPutMaybeAligned64 h mem p v

/-- IoRead8 (io-base.h line 981). -/
@[simp] def IoRead8 (h : HostByteOrder) (mem : Mem) (p : Nat) : Nat × Mem × Nat :=
  IoReadAligned8 h mem p

/-- IoRead16 (io-base.h line 997). -/
@[simp] def IoRead16 (h : HostByteOrder) (mem : Mem) (p : Nat) : Nat × Mem × Nat :=
  IoReadMaybeAligned16 h mem p

/-- IoRead32 (io-base.h line 1013). -/
@[simp] def IoRead32 (h : HostByteOrder) (mem : Mem) (p : Nat) : Nat × Mem × Nat :=
  IoReadMaybeAligned32 h mem p

/-- IoRead64 (io-base.h line 1029). -/
@[simp] def IoRead64 (h : HostByteOrder) (mem : Mem) (p : Nat) : Nat × Mem × Nat :=
  IoReadMaybeAligned64 h mem p

/-- IoWrite8 (io-base.h line 1046). -/
@[simp] def IoWrite8 (h : HostByteOrder) (mem : Mem) (p v : Nat) : Mem × Nat :=
  IoWriteAligned8 h mem p v

/-- IoWrite16 (io-base.h line 1063). -/
@[simp] def IoWrite16 (h : HostByteOrder) (mem : Mem) (p v : Nat) : Mem × Nat :=
  IoWriteMaybeAligned16 h mem p v

/-- IoWrite32 (io-base.h line 1080). -/
@[simp] def IoWrite32 (h : HostByteOrder) (mem : Mem) (p v : Nat) : Mem × Nat :=
  IoWriteMaybeAligned32 h mem p v

/-- IoWrite64 (io-base.h line 1097). -/
@[simp] def IoWrite64 (h : HostByteOrder) (mem : Mem) (p v : Nat) : Mem × Nat :=
  IoWriteMaybeAligned64 h mem p v

/-! The little-endian and big-endian convenience layers: each accessor
composes the matching base accessor with the matching byte swap; the
8-bit forms forward to the base accessor unchanged. -/

/-- IoLittleEndianGet8 (part_000 line 46). -/
@[simp] def IoLittleEndianGet8 (h : HostByteOrder) (mem : Mem) (p : Nat) : Nat :=
  IoGet8 h mem p

/-- IoLittleEndianGet16 (part_000 line 62). -/
@[simp] def IoLittleEndianGet16 (h : HostByteOrder) (mem : Mem) (p : Nat) : Nat :=
  ByteOrderSwap16LittleToHost h (IoGet16 h mem p)

/-- IoLittleEndianGet32 (part_000 line 78). -/
@[simp] def IoLittleEndianGet32 (h : HostByteOrder) (mem : Mem) (p : Nat) : Nat :=
  ByteOrderSwap32LittleToHost h (IoGet32 h mem p)

/-- IoLittleEndianGet64 (part_000 line 94). -/
@[simp] def IoLittleEndianGet64 (h : HostByteOrder) (mem : Mem) (p : Nat) : Nat :=
  ByteOrderSwap64LittleToHost h (IoGet64 h mem p)

/-- IoLittleEndianPut8 (part_000 line 112). -/
@[simp] def IoLittleEndianPut8 (h : HostByteOrder) (mem : Mem) (p v : Nat) : Mem :=
  IoPut8 h mem p v

/-- IoLittleEndianPut16 (part_000 line 130). -/
@[simp] def IoLittleEndianPut16 (h : HostByteOrder) (mem : Mem) (p v : Nat) : Mem :=
  IoPut16 h mem p (ByteOrderSwap16HostToLittle h v)

/-- IoLittleEndianPut32 (part_000 line 148). -/
@[simp] def IoLittleEndianPut32 (h : HostByteOrder) (mem : Mem) (p v : Nat) : Mem :=
  IoPut32 h mem p (ByteOrderSwap32HostToLittle h v)

/-- IoLittleEndianPut64 (part_000 line 166). -/
@[simp] def IoLittleEndianPut64 (h : HostByteOrder) (mem : Mem) (p v : Nat) : Mem :=
  IoPut64 h mem p (ByteOrderSwap64HostToLittle h v)

/-- IoLittleEndianRead8 (part_000 line 185). -/
@[simp] def IoLittleEndianRead8 (h : HostByteOrder) (mem : Mem) (p : Nat) : Nat × Mem × Nat :=
  IoRead8 h mem p

/-- IoLittleEndianRead16 (part_000 line 204). -/
@[simp] def IoLittleEndianRead16 (h : HostByteOrder) (mem : Mem) (p : Nat) : Nat × Mem × Nat :=
  match IoRead16 h mem p with
  | (t, m, c) => (ByteOrderSwap16LittleToHost h t, m, c)

/-- IoLittleEndianRead32 (part_000 line 223). -/
@[simp] def IoLittleEndianRead32 (h : HostByteOrder) (mem : Mem) (p : Nat) : Nat × Mem × Nat :=
  match IoRead32 h mem p with
  | (t, m, c) => (ByteOrderSwap32LittleToHost h t, m, c)

/-- IoLittleEndianRead64 (part_000 line 242). -/
@[simp] def IoLittleEndianRead64 (h : HostByteOrder) (mem : Mem) (p : Nat) : Nat × Mem × Nat :=
  match IoRead64 h mem p with
  | (t, m, c) => (ByteOrderSwap64LittleToHost h t, m, c)

/-- IoLittleEndianWrite8 (part_000 line 262). -/
@[simp] def IoLittleEndianWrite8 (h : HostByteOrder) (mem : Mem) (p v : Nat) : Mem × Nat :=
  IoWrite8 h mem p v

/-- IoLittleEndianWrite16 (part_000 line 282). -/
@[simp] def IoLittleEndianWrite16 (h : HostByteOrder) (mem : Mem) (p v : Nat) : Mem × Nat :=
  IoWrite16 h mem p (ByteOrderSwap16HostToLittle h v)

/-- IoLittleEndianWrite32 (part_000 line 302). -/
@[simp] def IoLittleEndianWrite32 (h : HostByteOrder) (mem : Mem) (p v : Nat) : Mem × Nat :=
  IoWrite32 h mem p (ByteOrderSwap32HostToLittle h v)

/-- IoLittleEndianWrite64 (part_000 line 322). -/
@[simp] def IoLittleEndianWrite64 (h : HostByteOrder) (mem : Mem) (p v : Nat) : Mem × Nat :=
  IoWrite64 h mem p (ByteOrderSwap64HostToLittle h v)

/-- IoLittleEndianGetAligned8 (part_000 line 338). -/
@[simp] def IoLittleEndianGetAligned8 (h : HostByteOrder) (mem : Mem) (p : Nat) : Nat :=
  IoGetAligned8 h mem p

/-- IoLittleEndianGetAligned16 (part_000 line 354). -/
@[simp] def IoLittleEndianGetAligned16 (h : HostByteOrder) (mem : Mem) (p : Nat) : Nat :=
  ByteOrderSwap16LittleToHost h (IoGetAligned16 h mem p)

/-- IoLittleEndianGetAligned32 (part_000 line 370). -/
@[simp] def IoLittleEndianGetAligned32 (h : HostByteOrder) (mem : Mem) (p : Nat) : Nat :=
  ByteOrderSwap32LittleToHost h (IoGetAligned32 h mem p)

/-- IoLittleEndianGetAligned64 (part_000 line 386). -/
@[simp] def IoLittleEndianGetAligned64 (h : HostByteOrder) (mem : Mem) (p : Nat) : Nat :=
  ByteOrderSwap64LittleToHost h (IoGetAligned64 h mem p)

/-- IoLittleEndianPutAligned8 (part_000 line 404). -/
@[simp] def IoLittleEndianPutAligned8 (h : HostByteOrder) (mem : Mem) (p v : Nat) : Mem :=
  IoPutAligned8 h mem p v

/-- IoLittleEndianPutAligned16 (part_000 line 422). -/
@[simp] def IoLittleEndianPutAligned16 (h : HostByteOrder) (mem : Mem) (p v : Nat) : Mem :=
  IoPutAligned16 h mem p (ByteOrderSwap16HostToLittle h v)

/-- IoLittleEndianPutAligned32 (part_000 line 440). -/
@[simp] def IoLittleEndianPutAligned32 (h : HostByteOrder) (mem : Mem) (p v : Nat) : Mem :=
  IoPutAligned32 h mem p (ByteOrderSwap32HostToLittle h v)

/-- IoLittleEndianPutAligned64 (part_000 line 458). -/
@[simp] def IoLittleEndianPutAligned64 (h : HostByteOrder) (mem : Mem) (p v : Nat) : Mem :=
  IoPutAligned64 h mem p (ByteOrderSwap64HostToLittle h v)

/-- IoLittleEndianReadAligned8 (part_000 line 477). -/
@[simp] def IoLittleEndianReadAligned8 (h : HostByteOrder) (mem : Mem) (p : Nat) : Nat × Mem × Nat :=
  IoReadAligned8 h mem p

/-- IoLittleEndianReadAligned16 (part_000 line 496). -/
@[simp] def IoLittleEndianReadAligned16 (h : HostByteOrder) (mem : Mem) (p : Nat) : Nat × Mem × Nat :=
  match IoReadAligned16 h mem p with
  | (t, m, c) => (ByteOrderSwap16LittleToHost h t, m, c)

/-- IoLittleEndianReadAligned32 (part_000 line 515). -/
@[simp] def IoLittleEndianReadAligned32 (h : HostByteOrder) (mem : Mem) (p : Nat) : Nat × Mem × Nat :=
  match IoReadAligned32 h mem p with
  | (t, m, c) => (ByteOrderSwap32LittleToHost h t, m, c)

/-- IoLittleEndianReadAligned64 (part_000 line 534). -/
@[simp] def IoLittleEndianReadAligned64 (h : HostByteOrder) (mem : Mem) (p : Nat) : Nat × Mem × Nat :=
  match IoReadAligned64 h mem p with
  | (t, m, c) => (ByteOrderSwap64LittleToHost h t, m, c)

/-- IoLittleEndianWriteAligned8 (part_000 line 554). -/
@[simp] def IoLittleEndianWriteAligned8 (h : HostByteOrder) (mem : Mem) (p v : Nat) : Mem × Nat :=
  IoWriteAligned8 h mem p v

/-- IoLittleEndianWriteAligned16 (part_000 line 574). -/
@[simp] def IoLittleEndianWriteAligned16 (h : HostByteOrder) (mem : Mem) (p v : Nat) : Mem × Nat :=
  IoWriteAligned16 h mem p (ByteOrderSwap16HostToLittle h v)

/-- IoLittleEndianWriteAligned32 (part_000 line 594). -/
@[simp] def IoLittleEndianWriteAligned32 (h : HostByteOrder) (mem : Mem) (p v : Nat) : Mem × Nat :=
  IoWriteAligned32 h mem p (ByteOrderSwap32HostToLittle h v)

/-- IoLittleEndianWriteAligned64 (part_000 line 614). -/
@[simp] def IoLittleEndianWriteAligned64 (h : HostByteOrder) (mem : Mem) (p v : Nat) : Mem × Nat :=
  IoWriteAligned64 h mem p (ByteOrderSwap64HostToLittle h v)

/-- IoLittleEndianGetUnaligned8 (part_000 line 630). -/
@[simp] def IoLittleEndianGetUnaligned8 (h : HostByteOrder) (mem : Mem) (p : Nat) : Nat :=
  IoGetUnaligned8 h mem p

/-- IoLittleEndianGetUnaligned16 (part_000 line 646). -/
@[simp] def IoLittleEndianGetUnaligned16 (h : HostByteOrder) (mem : Mem) (p : Nat) : Nat :=
  ByteOrderSwap16LittleToHost h (IoGetUnaligned16 h mem p)

/-- IoLittleEndianGetUnaligned32 (part_000 line 662). -/
@[simp] def IoLittleEndianGetUnaligned32 (h : HostByteOrder) (mem : Mem) (p : Nat) : Nat :=
  ByteOrderSwap32LittleToHost h (IoGetUnaligned32 h mem p)

/-- IoLittleEndianGetUnaligned64 (part_000 line 678). -/
@[simp] def IoLittleEndianGetUnaligned64 (h : HostByteOrder) (mem : Mem) (p : Nat) : Nat :=
  ByteOrderSwap64LittleToHost h (IoGetUnaligned64 h mem p)

/-- IoLittleEndianPutUnaligned8 (part_000 line 696). -/
@[simp] def IoLittleEndianPutUnaligned8 (h : HostByteOrder) (mem : Mem) (p v : Nat) : Mem :=
  IoPutUnaligned8 h mem p v

/-- IoLittleEndianPutUnaligned16 (part_000 line 714). -/
@[simp] def IoLittleEndianPutUnaligned16 (h : HostByteOrder) (mem : Mem) (p v : Nat) : Mem :=
  IoPutUnaligned16 h mem p (ByteOrderSwap16HostToLittle h v)

/-- IoLittleEndianPutUnaligned32 (part_000 line 732). -/
@[simp] def IoLittleEndianPutUnaligned32 (h : HostByteOrder) (mem : Mem) (p v : Nat) : Mem :=
  IoPutUnaligned32 h mem p (ByteOrderSwap32HostToLittle h v)

/-- IoLittleEndianPutUnaligned64 (part_000 line 750). -/
@[simp] def IoLittleEndianPutUnaligned64 (h : HostByteOrder) (mem : Mem) (p v : Nat) : Mem :=
  IoPutUnaligned64 h mem p (ByteOrderSwap64HostToLittle h v)

/-- IoLittleEndianReadUnaligned8 (part_000 line 769). -/
@[simp] def IoLittleEndianReadUnaligned8 (h : HostByteOrder) (mem : Mem) (p : Nat) : Nat × Mem × Nat :=
  IoReadUnaligned8 h mem p

/-- IoLittleEndianReadUnaligned16 (part_000 line 788). -/
@[simp] def IoLittleEndianReadUnaligned16 (h : HostByteOrder) (mem : Mem) (p : Nat) : Nat × Mem × Nat :=
  match IoReadUnaligned16 h mem p with
  | (t, m, c) => (ByteOrderSwap16LittleToHost h t, m, c)

/-- IoLittleEndianReadUnaligned32 (part_000 line 807). -/
@[simp] def IoLittleEndianReadUnaligned32 (h : HostByteOrder) (mem : Mem) (p : Nat) : Nat × Mem × Nat :=
  match IoReadUnaligned32 h mem p with
  | (t, m, c) => (ByteOrderSwap32LittleToHost h t, m, c)

/-- IoLittleEndianReadUnaligned64 (part_000 line 826). -/
@[simp] def IoLittleEndianReadUnaligned64 (h : HostByteOrder) (mem : Mem) (p : Nat) : Nat × Mem × Nat :=
  match IoReadUnaligned64 h mem p with
  | (t, m, c) => (ByteOrderSwap64LittleToHost h t, m, c)

/-- IoLittleEndianWriteUnaligned8 (part_000 line 846). -/
@[simp] def IoLittleEndianWriteUnaligned8 (h : HostByteOrder) (mem : Mem) (p v : Nat) : Mem × Nat :=
  IoWriteUnaligned8 h mem p v

/-- IoLittleEndianWriteUnaligned16 (part_000 line 866). -/
@[simp] def IoLittleEndianWriteUnaligned16 (h : HostByteOrder) (mem : Mem) (p v : Nat) : Mem × Nat :=
  IoWriteUnaligned16 h mem p (ByteOrderSwap16HostToLittle h v)

/-- IoLittleEndianWriteUnaligned32 (part_000 line 886). -/
@[simp] def IoLittleEndianWriteUnaligned32 (h : HostByteOrder) (mem : Mem) (p v : Nat) : Mem × Nat :=
  IoWriteUnaligned32 h mem p (ByteOrderSwap32HostToLittle h v)

/-- IoLittleEndianWriteUnaligned64 (part_000 line 906). -/
@[simp] def IoLittleEndianWriteUnaligned64 (h : HostByteOrder) (mem : Mem) (p v : Nat) : Mem × Nat :=
  IoWriteUnaligned64 h mem p (ByteOrderSwap64HostToLittle h v)

/-- IoBigEndianGet8 (part_003 line 46). -/
@[simp] def IoBigEndianGet8 (h : HostByteOrder) (mem : Mem) (p : Nat) : Nat :=
  IoGet8 h mem p

/-- IoBigEndianGet16 (part_003 line 62). -/
@[simp] def IoBigEndianGet16 (h : HostByteOrder) (mem : Mem) (p : Nat) : Nat :=
  ByteOrderSwap16BigToHost h (IoGet16 h mem p)

/-- IoBigEndianGet32 (part_003 line 78). -/
@[simp] def IoBigEndianGet32 (h : HostByteOrder) (mem : Mem) (p : Nat) : Nat :=
  ByteOrderSwap32BigToHost h (IoGet32 h mem p)

/-- IoBigEndianGet64 (part_003 line 94). -/
@[simp] def IoBigEndianGet64 (h : HostByteOrder) (mem : Mem) (p : Nat) : Nat :=
  ByteOrderSwap64BigToHost h (IoGet64 h mem p)

/-- IoBigEndianPut8 (part_003 line 112). -/
@[simp] def IoBigEndianPut8 (h : HostByteOrder) (mem : Mem) (p v : Nat) : Mem :=
  IoPut8 h mem p v

/-- IoBigEndianPut16 (part_003 line 130). -/
@[simp] def IoBigEndianPut16 (h : HostByteOrder) (mem : Mem) (p v : Nat) : Mem :=
  IoPut16 h mem p (ByteOrderSwap16HostToBig h v)

/-- IoBigEndianPut32 (part_003 line 148). -/
@[simp] def IoBigEndianPut32 (h : HostByteOrder) (mem : Mem) (p v : Nat) : Mem :=
  IoPut32 h mem p (ByteOrderSwap32HostToBig h v)

/-- IoBigEndianPut64 (part_003 line 166). -/
@[simp] def IoBigEndianPut64 (h : HostByteOrder) (mem : Mem) (p v : Nat) : Mem :=
  IoPut64 h mem p (ByteOrderSwap64HostToBig h v)

/-- IoBigEndianRead8 (part_003 line 185). -/
@[simp] def IoBigEndianRead8 (h : HostByteOrder) (mem : Mem) (p : Nat) : Nat × Mem × Nat :=
  IoRead8 h mem p

/-- IoBigEndianRead16 (part_003 line 204). -/
@[simp] def IoBigEndianRead16 (h : HostByteOrder) (mem : Mem) (p : Nat) : Nat × Mem × Nat :=
  match IoRead16 h mem p with
  | (t, m, c) => (ByteOrderSwap16BigToHost h t, m, c)

/-- IoBigEndianRead32 (part_003 line 223). -/
@[simp] def IoBigEndianRead32 (h : HostByteOrder) (mem : Mem) (p : Nat) : Nat × Mem × Nat :=
  match IoRead32 h mem p with
  | (t, m, c) => (ByteOrderSwap32BigToHost h t, m, c)

/-- IoBigEndianRead64 (part_003 line 242). -/
@[simp] def IoBigEndianRead64 (h : HostByteOrder) (mem : Mem) (p : Nat) : Nat × Mem × Nat :=
  match IoRead64 h mem p with
  | (t, m, c) => (ByteOrderSwap64BigToHost h t, m, c)

/-- IoBigEndianWrite8 (part_003 line 262). -/
@[simp] def IoBigEndianWrite8 (h : HostByteOrder) (mem : Mem) (p v : Nat) : Mem × Nat :=
  IoWrite8 h mem p v

/-- IoBigEndianWrite16 (part_003 line 282). -/
@[simp] def IoBigEndianWrite16 (h : HostByteOrder) (mem : Mem) (p v : Nat) : Mem × Nat :=
  IoWrite16 h mem p (ByteOrderSwap16HostToBig h v)

/-- IoBigEndianWrite32 (part_003 line 302). -/
@[simp] def IoBigEndianWrite32 (h : HostByteOrder) (mem : Mem) (p v : Nat) : Mem × Nat :=
  IoWrite32 h mem p (ByteOrderSwap32HostToBig h v)

/-- IoBigEndianWrite64 (part_003 line 322). -/
@[simp] def IoBigEndianWrite64 (h : HostByteOrder) (mem : Mem) (p v : Nat) : Mem × Nat :=
  IoWrite64 h mem p (ByteOrderSwap64HostToBig h v)

/-- IoBigEndianGetAligned8 (part_003 line 338). -/
@[simp] def IoBigEndianGetAligned8 (h : HostByteOrder) (mem : Mem) (p : Nat) : Nat :=
  IoGetAligned8 h mem p

/-- IoBigEndianGetAligned16 (part_003 line 354). -/
@[simp] def IoBigEndianGetAligned16 (h : HostByteOrder) (mem : Mem) (p : Nat) : Nat :=
  ByteOrderSwap16BigToHost h (IoGetAligned16 h mem p)

/-- IoBigEndianGetAligned32 (part_003 line 370). -/
@[simp] def IoBigEndianGetAligned32 (h : HostByteOrder) (mem : Mem) (p : Nat) : Nat :=
  ByteOrderSwap32BigToHost h (IoGetAligned32 h mem p)

/-- IoBigEndianGetAligned64 (part_003 line 386). -/
@[simp] def IoBigEndianGetAligned64 (h : HostByteOrder) (mem : Mem) (p : Nat) : Nat :=
  ByteOrderSwap64BigToHost h (IoGetAligned64 h mem p)

/-- IoBigEndianPutAligned8 (part_003 line 404). -/
@[simp] def IoBigEndianPutAligned8 (h : HostByteOrder) (mem : Mem) (p v : Nat) : Mem :=
  IoPutAligned8 h mem p v

/-- IoBigEndianPutAligned16 (part_003 line 422). -/
@[simp] def IoBigEndianPutAligned16 (h : HostByteOrder) (mem : Mem) (p v : Nat) : Mem :=
  IoPutAligned16 h mem p (ByteOrderSwap16HostToBig h v)

/-- IoBigEndianPutAligned32 (part_003 line 440). -/
@[simp] def IoBigEndianPutAligned32 (h : HostByteOrder) (mem : Mem) (p v : Nat) : Mem :=
  IoPutAligned32 h mem p (ByteOrderSwap32HostToBig h v)

/-- IoBigEndianPutAligned64 (part_003 line 458). -/
@[simp] def IoBigEndianPutAligned64 (h : HostByteOrder) (mem : Mem) (p v : Nat) : Mem :=
  IoPutAligned64 h mem p (ByteOrderSwap64HostToBig h v)

/-- IoBigEndianReadAligned8 (part_003 line 477). -/
@[simp] def IoBigEndianReadAligned8 (h : HostByteOrder) (mem : Mem) (p : Nat) : Nat × Mem × Nat :=
  IoReadAligned8 h mem p

/-- IoBigEndianReadAligned16 (part_003 line 496). -/
@[simp] def IoBigEndianReadAligned16 (h : HostByteOrder) (mem : Mem) (p : Nat) : Nat × Mem × Nat :=
  match IoReadAligned16 h mem p with
  | (t, m, c) => (ByteOrderSwap16BigToHost h t, m, c)

/-- IoBigEndianReadAligned32 (part_003 line 515). -/
@[simp] def IoBigEndianReadAligned32 (h : HostByteOrder) (mem : Mem) (p : Nat) : Nat × Mem × Nat :=
  match IoReadAligned32 h mem p with
  | (t, m, c) => (ByteOrderSwap32BigToHost h t, m, c)

/-- IoBigEndianReadAligned64 (part_003 line 534). -/
@[simp] def IoBigEndianReadAligned64 (h : HostByteOrder) (mem : Mem) (p : Nat) : Nat × Mem × Nat :=
  match IoReadAligned64 h mem p with
  | (t, m, c) => (ByteOrderSwap64BigToHost h t, m, c)

/-- IoBigEndianWriteAligned8 (part_003 line 554). -/
@[simp] def IoBigEndianWriteAligned8 (h : HostByteOrder) (mem : Mem) (p v : Nat) : Mem × Nat :=
  IoWriteAligned8 h mem p v

/-- IoBigEndianWriteAligned16 (part_003 line 574). -/
@[simp] def IoBigEndianWriteAligned16 (h : HostByteOrder) (mem : Mem) (p v : Nat) : Mem × Nat :=
  IoWriteAligned16 h mem p (ByteOrderSwap16HostToBig h v)

/-- IoBigEndianWriteAligned32 (part_003 line 594). -/
@[simp] def IoBigEndianWriteAligned32 (h : HostByteOrder) (mem : Mem) (p v : Nat) : Mem × Nat :=
  IoWriteAligned32 h mem p (ByteOrderSwap32HostToBig h v)

/-- IoBigEndianWriteAligned64 (part_003 line 614). -/
@[simp] def IoBigEndianWriteAligned64 (h : HostByteOrder) (mem : Mem) (p v : Nat) : Mem × Nat :=
  IoWriteAligned64 h mem p (ByteOrderSwap64HostToBig h v)

/-- IoBigEndianGetUnaligned8 (part_003 line 630). -/
@[simp] def IoBigEndianGetUnaligned8 (h : HostByteOrder) (mem : Mem) (p : Nat) : Nat :=
  IoGetUnaligned8 h mem p

/-- IoBigEndianGetUnaligned16 (part_003 line 646). -/
@[simp] def IoBigEndianGetUnaligned16 (h : HostByteOrder) (mem : Mem) (p : Nat) : Nat :=
  ByteOrderSwap16BigToHost h (IoGetUnaligned16 h mem p)

/-- IoBigEndianGetUnaligned32 (part_003 line 662). -/
@[simp] def IoBigEndianGetUnaligned32 (h : HostByteOrder) (mem : Mem) (p : Nat) : Nat :=
  ByteOrderSwap32BigToHost h (IoGetUnaligned32 h mem p)

/-- IoBigEndianGetUnaligned64 (part_003 line 678). -/
@[simp] def IoBigEndianGetUnaligned64 (h : HostByteOrder) (mem : Mem) (p : Nat) : Nat :=
  ByteOrderSwap64BigToHost h (IoGetUnaligned64 h mem p)

/-- IoBigEndianPutUnaligned8 (part_003 line 696). -/
@[simp] def IoBigEndianPutUnaligned8 (h : HostByteOrder) (mem : Mem) (p v : Nat) : Mem :=
  IoPutUnaligned8 h mem p v

/-- IoBigEndianPutUnaligned16 (part_003 line 714). -/
@[simp] def IoBigEndianPutUnaligned16 (h : HostByteOrder) (mem : Mem) (p v : Nat) : Mem :=
  IoPutUnaligned16 h mem p (ByteOrderSwap16HostToBig h v)

/-- IoBigEndianPutUnaligned32 (part_003 line 732). -/
@[simp] def IoBigEndianPutUnaligned32 (h : HostByteOrder) (mem : Mem) (p v : Nat) : Mem :=
  IoPutUnaligned32 h mem p (ByteOrderSwap32HostToBig h v)

/-- IoBigEndianPutUnaligned64 (part_003 line 750). -/
@[simp] def IoBigEndianPutUnaligned64 (h : HostByteOrder) (mem : Mem) (p v : Nat) : Mem :=
  IoPutUnaligned64 h mem p (ByteOrderSwap64HostToBig h v)

/-- IoBigEndianReadUnaligned8 (part_003 line 769). -/
@[simp] def IoBigEndianReadUnaligned8 (h : HostByteOrder) (mem : Mem) (p : Nat) : Nat × Mem × Nat :=
  IoReadUnaligned8 h mem p

/-- IoBigEndianReadUnaligned16 (part_003 line 788). -/
@[simp] def IoBigEndianReadUnaligned16 (h : HostByteOrder) (mem : Mem) (p : Nat) : Nat × Mem × Nat :=
  match IoReadUnaligned16 h mem p with
  | (t, m, c) => (ByteOrderSwap16BigToHost h t, m, c)

/-- IoBigEndianReadUnaligned32 (part_003 line 807). -/
@[simp] def IoBigEndianReadUnaligned32 (h : HostByteOrder) (mem : Mem) (p : Nat) : Nat × Mem × Nat :=
  match IoReadUnaligned32 h mem p with
  | (t, m, c) => (ByteOrderSwap32BigToHost h t, m, c)

/-- IoBigEndianReadUnaligned64 (part_003 line 826). -/
@[simp] def IoBigEndianReadUnaligned64 (h : HostByteOrder) (mem : Mem) (p : Nat) : Nat × Mem × Nat :=
  match IoReadUnaligned64 h mem p with
  | (t, m, c) => (ByteOrderSwap64BigToHost h t, m, c)

/-- IoBigEndianWriteUnaligned8 (part_003 line 846). -/
@[simp] def IoBigEndianWriteUnaligned8 (h : HostByteOrder) (mem : Mem) (p v : Nat) : Mem × Nat :=
  IoWriteUnaligned8 h mem p v

/-- IoBigEndianWriteUnaligned16 (part_003 line 866). -/
@[simp] def IoBigEndianWriteUnaligned16 (h : HostByteOrder) (mem : Mem) (p v : Nat) : Mem × Nat :=
  IoWriteUnaligned16 h mem p (ByteOrderSwap16HostToBig h v)

/-- IoBigEndianWriteUnaligned32 (part_003 line 886). -/
@[simp] def IoBigEndianWriteUnaligned32 (h : HostByteOrder) (mem : Mem) (p v : Nat) : Mem × Nat :=
  IoWriteUnaligned32 h mem p (ByteOrderSwap32HostToBig h v)

/-- IoBigEndianWriteUnaligned64 (part_003 line 906). -/
@[simp] def IoBigEndianWriteUnaligned64 (h : HostByteOrder) (mem : Mem) (p v : Nat) : Mem × Nat :=
  IoWriteUnaligned64 h mem p (ByteOrderSwap64HostToBig h v)

/-! The operation matrix, indexed by width, target byte order and
alignment mode.  For the little/big layers the maybe-aligned and the
default (unqualified) entries both denote the plain endian accessor:
by construction it is the maybe-aligned form (it wraps the unqualified
base accessor, which for widths 16/32/64 is the maybe-aligned one and
for width 8 the aligned one). -/

/-- Access width in the operation matrix. -/
inductive IoWidth
  | w8
  | w16
  | w32
  | w64
deriving DecidableEq

/-- The byte count of a width. -/
def IoWidth.bytes : IoWidth → Nat
  | .w8 => 1
  | .w16 => 2
  | .w32 => 4
  | .w64 => 8

/-- Target byte order of an accessor: host-native, little or big. -/
inductive IoOrder
  | native
  | little
  | big
deriving DecidableEq

/-- Alignment mode of an accessor. -/
inductive IoAlign
  | aligned
  | unaligned
  | maybeAligned
  | unqualified
deriving DecidableEq

/-- The get accessor selected by width, order and alignment mode. -/
def getOp : IoWidth → IoOrder → IoAlign → HostByteOrder → Mem → Nat → Nat
  | .w8, .native, .aligned => IoGetAligned8
  | .w8, .native, .unaligned => IoGetUnaligned8
  | .w8, .native, .maybeAligned => IoGetMaybeAligned8
  | .w8, .native, .unqualified => IoGet8
  | .w8, .little, .aligned => IoLittleEndianGetAligned8
  | .w8, .little, .unaligned => IoLittleEndianGetUnaligned8
  | .w8, .little, .maybeAligned => IoLittleEndianGet8
  | .w8, .little, .unqualified => IoLittleEndianGet8
  | .w8, .big, .aligned => IoBigEndianGetAligned8
  | .w8, .big, .unaligned => IoBigEndianGetUnaligned8
  | .w8, .big, .maybeAligned => IoBigEndianGet8
  | .w8, .big, .unqualified => IoBigEndianGet8
  | .w16, .native, .aligned => IoGetAligned16
  | .w16, .native, .unaligned => IoGetUnaligned16
  | .w16, .native, .maybeAligned => IoGetMaybeAligned16
  | .w16, .native, .unqualified => IoGet16
  | .w16, .little, .aligned => IoLittleEndianGetAligned16
  | .w16, .little, .unaligned => IoLittleEndianGetUnaligned16
  | .w16, .little, .maybeAligned => IoLittleEndianGet16
  | .w16, .little, .unqualified => IoLittleEndianGet16
  | .w16, .big, .aligned => IoBigEndianGetAligned16
  | .w16, .big, .unaligned => IoBigEndianGetUnaligned16
  | .w16, .big, .maybeAligned => IoBigEndianGet16
  | .w16, .big, .unqualified => IoBigEndianGet16
  | .w32, .native, .aligned => IoGetAligned32
  | .w32, .native, .unaligned => IoGetUnaligned32
  | .w32, .native, .maybeAligned => IoGetMaybeAligned32
  | .w32, .native, .unqualified => IoGet32
  | .w32, .little, .aligned => IoLittleEndianGetAligned32
  | .w32, .little, .unaligned => IoLittleEndianGetUnaligned32
  | .w32, .little, .maybeAligned => IoLittleEndianGet32
  | .w32, .little, .unqualified => IoLittleEndianGet32
  | .w32, .big, .aligned => IoBigEndianGetAligned32
  | .w32, .big, .unaligned => IoBigEndianGetUnaligned32
  | .w32, .big, .maybeAligned => IoBigEndianGet32
  | .w32, .big, .unqualified => IoBigEndianGet32
  | .w64, .native, .aligned => IoGetAligned64
  | .w64, .native, .unaligned => IoGetUnaligned64
  | .w64, .native, .maybeAligned => IoGetMaybeAligned64
  | .w64, .native, .unqualified => IoGet64
  | .w64, .little, .aligned => IoLittleEndianGetAligned64
  | .w64, .little, .unaligned => IoLittleEndianGetUnaligned64
  | .w64, .little, .maybeAligned => IoLittleEndianGet64
  | .w64, .little, .unqualified => IoLittleEndianGet64
  | .w64, .big, .aligned => IoBigEndianGetAligned64
  | .w64, .big, .unaligned => IoBigEndianGetUnaligned64
  | .w64, .big, .maybeAligned => IoBigEndianGet64
  | .w64, .big, .unqualified => IoBigEndianGet64

/-- The put accessor selected by width, order and alignment mode. -/
def putOp : IoWidth → IoOrder → IoAlign → HostByteOrder → Mem → Nat → Nat → Mem
  | .w8, .native, .aligned => IoPutAligned8
  | .w8, .native, .unaligned => IoPutUnaligned8
  | .w8, .native, .maybeAligned => IoPutMaybeAligned8
  | .w8, .native, .unqualified => IoPut8
  | .w8, .little, .aligned => IoLittleEndianPutAligned8
  | .w8, .little, .unaligned => IoLittleEndianPutUnaligned8
  | .w8, .little, .maybeAligned => IoLittleEndianPut8
  | .w8, .little, .unqualified => IoLittleEndianPut8
  | .w8, .big, .aligned => IoBigEndianPutAligned8
  | .w8, .big, .unaligned => IoBigEndianPutUnaligned8
  | .w8, .big, .maybeAligned => IoBigEndianPut8
  | .w8, .big, .unqualified => IoBigEndianPut8
  | .w16, .native, .aligned => IoPutAligned16
  | .w16, .native, .unaligned => IoPutUnaligned16
  | .w16, .native, .maybeAligned => IoPutMaybeAligned16
  | .w16, .native, .unqualified => IoPut16
  | .w16, .little, .aligned => IoLittleEndianPutAligned16
  | .w16, .little, .unaligned => IoLittleEndianPutUnaligned16
  | .w16, .little, .maybeAligned => IoLittleEndianPut16
  | .w16, .little, .unqualified => IoLittleEndianPut16
  | .w16, .big, .aligned => IoBigEndianPutAligned16
  | .w16, .big, .unaligned => IoBigEndianPutUnaligned16
  | .w16, .big, .maybeAligned => IoBigEndianPut16
  | .w16, .big, .unqualified => IoBigEndianPut16
  | .w32, .native, .aligned => IoPutAligned32
  | .w32, .native, .unaligned => IoPutUnaligned32
  | .w32, .native, .maybeAligned => IoPutMaybeAligned32
  | .w32, .native, .unqualified => IoPut32
  | .w32, .little, .aligned => IoLittleEndianPutAligned32
  | .w32, .little, .unaligned => IoLittleEndianPutUnaligned32
  | .w32, .little, .maybeAligned => IoLittleEndianPut32
  | .w32, .little, .unqualified => IoLittleEndianPut32
  | .w32, .big, .aligned => IoBigEndianPutAligned32
  | .w32, .big, .unaligned => IoBigEndianPutUnaligned32
  | .w32, .big, .maybeAligned => IoBigEndianPut32
  | .w32, .big, .unqualified => IoBigEndianPut32
  | .w64, .native, .aligned => IoPutAligned64
  | .w64, .native, .unaligned => IoPutUnaligned64
  | .w64, .native, .maybeAligned => IoPutMaybeAligned64
  | .w64, .native, .unqualified => IoPut64
  | .w64, .little, .aligned => IoLittleEndianPutAligned64
  | .w64, .little, .unaligned => IoLittleEndianPutUnaligned64
  | .w64, .little, .maybeAligned => IoLittleEndianPut64
  | .w64, .little, .unqualified => IoLittleEndianPut64
  | .w64, .big, .aligned => IoBigEndianPutAligned64
  | .w64, .big, .unaligned => IoBigEndianPutUnaligned64
  | .w64, .big, .maybeAligned => IoBigEndianPut64
  | .w64, .big, .unqualified => IoBigEndianPut64

/-- The cursor-advancing read accessor selected by width, order and alignment mode. -/
def readOp : IoWidth → IoOrder → IoAlign → HostByteOrder → Mem → Nat → Nat × Mem × Nat
  | .w8, .native, .aligned => IoReadAligned8
  | .w8, .native, .unaligned => IoReadUnaligned8
  | .w8, .native, .maybeAligned => IoReadMaybeAligned8
  | .w8, .native, .unqualified => IoRead8
  | .w8, .little, .aligned => IoLittleEndianReadAligned8
  | .w8, .little, .unaligned => IoLittleEndianReadUnaligned8
  | .w8, .little, .maybeAligned => IoLittleEndianRead8
  | .w8, .little, .unqualified => IoLittleEndianRead8
  | .w8, .big, .aligned => IoBigEndianReadAligned8
  | .w8, .big, .unaligned => IoBigEndianReadUnaligned8
  | .w8, .big, .maybeAligned => IoBigEndianRead8
  | .w8, .big, .unqualified => IoBigEndianRead8
  | .w16, .native, .aligned => IoReadAligned16
  | .w16, .native, .unaligned => IoReadUnaligned16
  | .w16, .native, .maybeAligned => IoReadMaybeAligned16
  | .w16, .native, .unqualified => IoRead16
  | .w16, .little, .aligned => IoLittleEndianReadAligned16
  | .w16, .little, .unaligned => IoLittleEndianReadUnaligned16
  | .w16, .little, .maybeAligned => IoLittleEndianRead16
  | .w16, .little, .unqualified => IoLittleEndianRead16
  | .w16, .big, .aligned => IoBigEndianReadAligned16
  | .w16, .big, .unaligned => IoBigEndianReadUnaligned16
  | .w16, .big, .maybeAligned => IoBigEndianRead16
  | .w16, .big, .unqualified => IoBigEndianRead16
  | .w32, .native, .aligned => IoReadAligned32
  | .w32, .native, .unaligned => IoReadUnaligned32
  | .w32, .native, .maybeAligned => IoReadMaybeAligned32
  | .w32, .native, .unqualified => IoRead32
  | .w32, .little, .aligned => IoLittleEndianReadAligned32
  | .w32, .little, .unaligned => IoLittleEndianReadUnaligned32
  | .w32, .little, .maybeAligned => IoLittleEndianRead32
  | .w32, .little, .unqualified => IoLittleEndianRead32
  | .w32, .big, .aligned => IoBigEndianReadAligned32
  | .w32, .big, .unaligned => IoBigEndianReadUnaligned32
  | .w32, .big, .maybeAligned => IoBigEndianRead32
  | .w32, .big, .unqualified => IoBigEndianRead32
  | .w64, .native, .aligned => IoReadAligned64
  | .w64, .native, .unaligned => IoReadUnaligned64
  | .w64, .native, .maybeAligned => IoReadMaybeAligned64
  | .w64, .native, .unqualified => IoRead64
  | .w64, .little, .aligned => IoLittleEndianReadAligned64
  | .w64, .little, .unaligned => IoLittleEndianReadUnaligned64
  | .w64, .little, .maybeAligned => IoLittleEndianRead64
  | .w64, .little, .unqualified => IoLittleEndianRead64
  | .w64, .big, .aligned => IoBigEndianReadAligned64
  | .w64, .big, .unaligned => IoBigEndianReadUnaligned64
  | .w64, .big, .maybeAligned => IoBigEndianRead64
  | .w64, .big, .unqualified => IoBigEndianRead64

/-- The cursor-advancing write accessor selected by width, order and alignment mode. -/
def writeOp : IoWidth → IoOrder → IoAlign → HostByteOrder → Mem → Nat → Nat → Mem × Nat
  | .w8, .native, .aligned => IoWriteAligned8
  | .w8, .native, .unaligned => IoWriteUnaligned8
  | .w8, .native, .maybeAligned => IoWriteMaybeAligned8
  | .w8, .native, .unqualified => IoWrite8
  | .w8, .little, .aligned => IoLittleEndianWriteAligned8
  | .w8, .little, .unaligned => IoLittleEndianWriteUnaligned8
  | .w8, .little, .maybeAligned => IoLittleEndianWrite8
  | .w8, .little, .unqualified => IoLittleEndianWrite8
  | .w8, .big, .aligned => IoBigEndianWriteAligned8
  | .w8, .big, .unaligned => IoBigEndianWriteUnaligned8
  | .w8, .big, .maybeAligned => IoBigEndianWrite8
  | .w8, .big, .unqualified => IoBigEndianWrite8
  | .w16, .native, .aligned => IoWriteAligned16
  | .w16, .native, .unaligned => IoWriteUnaligned16
  | .w16, .native, .maybeAligned => IoWriteMaybeAligned16
  | .w16, .native, .unqualified => IoWrite16
  | .w16, .little, .aligned => IoLittleEndianWriteAligned16
  | .w16, .little, .unaligned => IoLittleEndianWriteUnaligned16
  | .w16, .little, .maybeAligned => IoLittleEndianWrite16
  | .w16, .little, .unqualified => IoLittleEndianWrite16
  | .w16, .big, .aligned => IoBigEndianWriteAligned16
  | .w16, .big, .unaligned => IoBigEndianWriteUnaligned16
  | .w16, .big, .maybeAligned => IoBigEndianWrite16
  | .w16, .big, .unqualified => IoBigEndianWrite16
  | .w32, .native, .aligned => IoWriteAligned32
  | .w32, .native, .unaligned => IoWriteUnaligned32
  | .w32, .native, .maybeAligned => IoWriteMaybeAligned32
  | .w32, .native, .unqualified => IoWrite32
  | .w32, .little, .aligned => IoLittleEndianWriteAligned32
  | .w32, .little, .unaligned => IoLittleEndianWriteUnaligned32
  | .w32, .little, .maybeAligned => IoLittleEndianWrite32
  | .w32, .little, .unqualified => IoLittleEndianWrite32
  | .w32, .big, .aligned => IoBigEndianWriteAligned32
  | .w32, .big, .unaligned => IoBigEndianWriteUnaligned32
  | .w32, .big, .maybeAligned => IoBigEndianWrite32
  | .w32, .big, .unqualified => IoBigEndianWrite32
  | .w64, .native, .aligned => IoWriteAligned64
  | .w64, .native, .unaligned => IoWriteUnaligned64
  | .w64, .native, .maybeAligned => IoWriteMaybeAligned64
  | .w64, .native, .unqualified => IoWrite64
  | .w64, .little, .aligned => IoLittleEndianWriteAligned64
  | .w64, .little, .unaligned => IoLittleEndianWriteUnaligned64
  | .w64, .little, .maybeAligned => IoLittleEndianWrite64
  | .w64, .little, .unqualified => IoLittleEndianWrite64
  | .w64, .big, .aligned => IoBigEndianWriteAligned64
  | .w64, .big, .unaligned => IoBigEndianWriteUnaligned64
  | .w64, .big, .maybeAligned => IoBigEndianWrite64
  | .w64, .big, .unqualified => IoBigEndianWrite64

/-- A zeroed memory, used by the concrete scenarios. -/
def zeroMem : Mem := fun _ => 0

/-! Properties of the byte-level machine model. -/

theorem toBytesLE_length (n v : Nat) : (toBytesLE n v).length = n := by
  induction n generalizing v with
  | zero => rfl
  | succ n ih => simp [toBytesLE, ih]

theorem toBytesLE_map_mod (n v : Nat) :
    (toBytesLE n v).map (fun b => b % 256) = toBytesLE n v := by
  induction n generalizing v with
  | zero => rfl
  | succ n ih => simp [toBytesLE, ih, Nat.mod_mod_of_dvd]

theorem fromBytesLE_toBytesLE (n v : Nat) : fromBytesLE (toBytesLE n v) = v % 256 ^ n := by
  induction n generalizing v with
  | zero => simp [toBytesLE, fromBytesLE, Nat.mod_one]
  | succ n ih =>
    rw [toBytesLE, fromBytesLE, ih, pow_succ, mul_comm (256 ^ n) 256, Nat.mod_mul]
    omega

theorem fromBytesLE_lt (bs : List Nat) : fromBytesLE bs < 256 ^ bs.length := by
  induction bs with
  | nil => simp [fromBytesLE]
  | cons b bs ih =>
    rw [fromBytesLE, List.length_cons, pow_succ, mul_comm (256 ^ bs.length) 256]
    have hb : b % 256 < 256 := Nat.mod_lt _ (by omega)
    omega

theorem toBytesLE_fromBytesLE (bs : List Nat) :
    toBytesLE bs.length (fromBytesLE bs) = bs.map (fun b => b % 256) := by
  induction bs with
  | nil => rfl
  | cons b bs ih =>
    rw [List.length_cons, toBytesLE, fromBytesLE, List.map_cons]
    congr 1
    · omega
    · rw [show (b % 256 + 256 * fromBytesLE bs) / 256 = fromBytesLE bs by omega, ih]

theorem writeBytes_frame (bs : List Nat) (mem : Mem) (p x : Nat)
    (hx : x < p ∨ p + bs.length ≤ x) : writeBytes mem p bs x = mem x := by
  induction bs generalizing mem p with
  | nil => rfl
  | cons b bs ih =>
    rw [writeBytes, ih _ (p + 1) (by simp at hx ⊢; omega)]
    have : x ≠ p := by simp at hx; omega
    simp [this]

theorem readBytes_writeBytes (bs : List Nat) (mem : Mem) (p : Nat) :
    readBytes (writeBytes mem p bs) p bs.length = bs.map (fun b => b % 256) := by
  induction bs generalizing mem p with
  | nil => rfl
  | cons b bs ih =>
    rw [List.length_cons, readBytes, writeBytes, List.map_cons]
    congr 1
    · rw [writeBytes_frame bs _ (p + 1) p (by omega)]
      simp
    · exact ih _ (p + 1)

theorem hostBytes_length (h : HostByteOrder) (n v : Nat) :
    (hostBytesOfScalar h n v).length = n := by
  cases h <;> simp [hostBytesOfScalar, toBytesLE_length]

theorem hostBytes_map_mod (h : HostByteOrder) (n v : Nat) :
    (hostBytesOfScalar h n v).map (fun b => b % 256) = hostBytesOfScalar h n v := by
  cases h <;> simp [hostBytesOfScalar, List.map_reverse, toBytesLE_map_mod]

theorem hostScalar_hostBytes (h : HostByteOrder) (n v : Nat) :
    hostScalarOfBytes h (hostBytesOfScalar h n v) = v % 256 ^ n := by
  cases h <;> simp [hostScalarOfBytes, hostBytesOfScalar, fromBytesLE_toBytesLE]

theorem bswap_lt (n v : Nat) : bswap n v < 256 ^ n := by
  have := fromBytesLE_lt ((toBytesLE n v).reverse)
  rwa [List.length_reverse, toBytesLE_length] at this

theorem bswap_bswap (n v : Nat) (hv : v < 256 ^ n) : bswap n (bswap n v) = v := by
  unfold bswap
  have h2 := toBytesLE_fromBytesLE ((toBytesLE n v).reverse)
  rw [List.length_reverse, toBytesLE_length, List.map_reverse, toBytesLE_map_mod] at h2
  rw [h2, List.reverse_reverse, fromBytesLE_toBytesLE, Nat.mod_eq_of_lt hv]

theorem core_get_put (h : HostByteOrder) (n : Nat) (mem : Mem) (p v : Nat) :
    hostScalarOfBytes h (readBytes (writeBytes mem p (hostBytesOfScalar h n v)) p n) =
      v % 256 ^ n := by
  have hr := readBytes_writeBytes (hostBytesOfScalar h n v) mem p
  rw [hostBytes_length, hostBytes_map_mod] at hr
  rw [hr, hostScalar_hostBytes]

theorem core_id (h : HostByteOrder) (n : Nat) (mem : Mem) (p v : Nat) (hv : v < 256 ^ n) :
    hostScalarOfBytes h (readBytes (writeBytes mem p (hostBytesOfScalar h n v)) p n) = v := by
  rw [core_get_put, Nat.mod_eq_of_lt hv]

theorem core_swap (h : HostByteOrder) (n : Nat) (mem : Mem) (p v : Nat) (hv : v < 256 ^ n) :
    bswap n (hostScalarOfBytes h
      (readBytes (writeBytes mem p (hostBytesOfScalar h n (bswap n v))) p n)) = v := by
  rw [core_get_put, Nat.mod_eq_of_lt (bswap_lt n v), bswap_bswap n v hv]

/-! Structural facts about the cursor-advancing matrix entries. -/

theorem readOp_val (w : IoWidth) (o : IoOrder) (a : IoAlign) (h : HostByteOrder)
    (mem : Mem) (p : Nat) : (readOp w o a h mem p).1 = getOp w o a h mem p := by
  cases w <;> cases o <;> cases a <;> rfl

theorem readOp_mem (w : IoWidth) (o : IoOrder) (a : IoAlign) (h : HostByteOrder)
    (mem : Mem) (p : Nat) : (readOp w o a h mem p).2.1 = mem := by
  cases w <;> cases o <;> cases a <;> rfl

theorem readOp_cursor (w : IoWidth) (o : IoOrder) (a : IoAlign) (h : HostByteOrder)
    (mem : Mem) (p : Nat) : (readOp w o a h mem p).2.2 = p + w.bytes := by
  cases w <;> cases o <;> cases a <;> rfl

theorem writeOp_mem (w : IoWidth) (o : IoOrder) (a : IoAlign) (h : HostByteOrder)
    (mem : Mem) (p v : Nat) : (writeOp w o a h mem p v).1 = putOp w o a h mem p v := by
  cases w <;> cases o <;> cases a <;> rfl

theorem writeOp_cursor (w : IoWidth) (o : IoOrder) (a : IoAlign) (h : HostByteOrder)
    (mem : Mem) (p v : Nat) : (writeOp w o a h mem p v).2 = p + w.bytes := by
  cases w <;> cases o <;> cases a <;> rfl


/-! Value-level collapse of the alignment modes: on this byte-level
machine the aligned and unaligned accessors move the same bytes, so the
maybe-aligned dispatch produces the aligned value on both branches. -/

theorem ioGetMaybe16_collapse (h : HostByteOrder) (mem : Mem) (p : Nat) :
    IoGetMaybeAligned16 h mem p = IoGetAligned16 h mem p := ite_self _

theorem ioPutMaybe16_collapse (h : HostByteOrder) (mem : Mem) (p v : Nat) :
    IoPutMaybeAligned16 h mem p v = IoPutAligned16 h mem p v := ite_self _

theorem ioGetMaybe32_collapse (h : HostByteOrder) (mem : Mem) (p : Nat) :
    IoGetMaybeAligned32 h mem p = IoGetAligned32 h mem p := ite_self _

theorem ioPutMaybe32_collapse (h : HostByteOrder) (mem : Mem) (p v : Nat) :
    IoPutMaybeAligned32 h mem p v = IoPutAligned32 h mem p v := ite_self _

theorem ioGetMaybe64_collapse (h : HostByteOrder) (mem : Mem) (p : Nat) :
    IoGetMaybeAligned64 h mem p = IoGetAligned64 h mem p := ite_self _

theorem ioPutMaybe64_collapse (h : HostByteOrder) (mem : Mem) (p v : Nat) :
    IoPutMaybeAligned64 h mem p v = IoPutAligned64 h mem p v := ite_self _

/-- Every alignment mode of a get entry produces the aligned entry's value. -/
theorem getOp_collapse (w : IoWidth) (o : IoOrder) (a : IoAlign) (h : HostByteOrder)
    (mem : Mem) (p : Nat) : getOp w o a h mem p = getOp w o .aligned h mem p := by
  cases w
  · cases o
    · cases a
      · rfl
      · rfl
      · rfl
      · rfl
    · cases a
      · rfl
      · rfl
      · rfl
      · rfl
    · cases a
      · rfl
      · rfl
      · rfl
      · rfl
  · cases o
    · cases a
      · rfl
      · rfl
      · exact ioGetMaybe16_collapse h mem p
      · exact ioGetMaybe16_collapse h mem p
    · cases a
      · rfl
      · rfl
      · exact congrArg (ByteOrderSwap16LittleToHost h) (ioGetMaybe16_collapse h mem p)
      · exact congrArg (ByteOrderSwap16LittleToHost h) (ioGetMaybe16_collapse h mem p)
    · cases a
      · rfl
      · rfl
      · exact congrArg (ByteOrderSwap16BigToHost h) (ioGetMaybe16_collapse h mem p)
      · exact congrArg (ByteOrderSwap16BigToHost h) (ioGetMaybe16_collapse h mem p)
  · cases o
    · cases a
      · rfl
      · rfl
      · exact ioGetMaybe32_collapse h mem p
      · exact ioGetMaybe32_collapse h mem p
    · cases a
      · rfl
      · rfl
      · exact congrArg (ByteOrderSwap32LittleToHost h) (ioGetMaybe32_collapse h mem p)
      · exact congrArg (ByteOrderSwap32LittleToHost h) (ioGetMaybe32_collapse h mem p)
    · cases a
      · rfl
      · rfl
      · exact congrArg (ByteOrderSwap32BigToHost h) (ioGetMaybe32_collapse h mem p)
      · exact congrArg (ByteOrderSwap32BigToHost h) (ioGetMaybe32_collapse h mem p)
  · cases o
    · cases a
      · rfl
      · rfl
      · exact ioGetMaybe64_collapse h mem p
      · exact ioGetMaybe64_collapse h mem p
    · cases a
      · rfl
      · rfl
      · exact congrArg (ByteOrderSwap64LittleToHost h) (ioGetMaybe64_collapse h mem p)
      · exact congrArg (ByteOrderSwap64LittleToHost h) (ioGetMaybe64_collapse h mem p)
    · cases a
      · rfl
      · rfl
      · exact congrArg (ByteOrderSwap64BigToHost h) (ioGetMaybe64_collapse h mem p)
      · exact congrArg (ByteOrderSwap64BigToHost h) (ioGetMaybe64_collapse h mem p)

/-- Every alignment mode of a put entry produces the aligned entry's memory. -/
theorem putOp_collapse (w : IoWidth) (o : IoOrder) (a : IoAlign) (h : HostByteOrder)
    (mem : Mem) (p v : Nat) : putOp w o a h mem p v = putOp w o .aligned h mem p v := by
  cases w
  · cases o
    · cases a
      · rfl
      · rfl
      · rfl
      · rfl
    · cases a
      · rfl
      · rfl
      · rfl
      · rfl
    · cases a
      · rfl
      · rfl
      · rfl
      · rfl
  · cases o
    · cases a
      · rfl
      · rfl
      · exact ioPutMaybe16_collapse h mem p v
      · exact ioPutMaybe16_collapse h mem p v
    · cases a
      · rfl
      · rfl
      · exact ioPutMaybe16_collapse h mem p (ByteOrderSwap16HostToLittle h v)
      · exact ioPutMaybe16_collapse h mem p (ByteOrderSwap16HostToLittle h v)
    · cases a
      · rfl
      · rfl
      · exact ioPutMaybe16_collapse h mem p (ByteOrderSwap16HostToBig h v)
      · exact ioPutMaybe16_collapse h mem p (ByteOrderSwap16HostToBig h v)
  · cases o
    · cases a
      · rfl
      · rfl
      · exact ioPutMaybe32_collapse h mem p v
      · exact ioPutMaybe32_collapse h mem p v
    · cases a
      · rfl
      · rfl
      · exact ioPutMaybe32_collapse h mem p (ByteOrderSwap32HostToLittle h v)
      · exact ioPutMaybe32_collapse h mem p (ByteOrderSwap32HostToLittle h v)
    · cases a
      · rfl
      · rfl
      · exact ioPutMaybe32_collapse h mem p (ByteOrderSwap32HostToBig h v)
      · exact ioPutMaybe32_collapse h mem p (ByteOrderSwap32HostToBig h v)
  · cases o
    · cases a
      · rfl
      · rfl
      · exact ioPutMaybe64_collapse h mem p v
      · exact ioPutMaybe64_collapse h mem p v
    · cases a
      · rfl
      · rfl
      · exact ioPutMaybe64_collapse h mem p (ByteOrderSwap64HostToLittle h v)
      · exact ioPutMaybe64_collapse h mem p (ByteOrderSwap64HostToLittle h v)
    · cases a
      · rfl
      · rfl
      · exact ioPutMaybe64_collapse h mem p (ByteOrderSwap64HostToBig h v)
      · exact ioPutMaybe64_collapse h mem p (ByteOrderSwap64HostToBig h v)

/-- The get/put round trip for every matrix entry. -/
theorem getOp_putOp (w : IoWidth) (o : IoOrder) (a : IoAlign) (h : HostByteOrder)
    (mem : Mem) (p v : Nat) (hv : v < 2 ^ (8 * w.bytes)) :
    getOp w o a h (putOp w o a h mem p v) p = v := by
  have hv' : v < 256 ^ w.bytes := by
    rw [pow_mul, show (2 : Nat) ^ 8 = 256 by norm_num] at hv
    exact hv
  rw [getOp_collapse, putOp_collapse]
  cases w
  · cases o
    · exact core_id h 1 mem p v hv'
    · exact core_id h 1 mem p v hv'
    · exact core_id h 1 mem p v hv'
  · cases o
    · exact core_id h 2 mem p v hv'
    · cases h
      · exact core_id .little 2 mem p v hv'
      · exact core_swap .big 2 mem p v hv'
    · cases h
      · exact core_swap .little 2 mem p v hv'
      · exact core_id .big 2 mem p v hv'
  · cases o
    · exact core_id h 4 mem p v hv'
    · cases h
      · exact core_id .little 4 mem p v hv'
      · exact core_swap .big 4 mem p v hv'
    · cases h
      · exact core_swap .little 4 mem p v hv'
      · exact core_id .big 4 mem p v hv'
  · cases o
    · exact core_id h 8 mem p v hv'
    · cases h
      · exact core_id .little 8 mem p v hv'
      · exact core_swap .big 8 mem p v hv'
    · cases h
      · exact core_swap .little 8 mem p v hv'
      · exact core_id .big 8 mem p v hv'

/-- Frame property of a scalar store: bytes outside the written window
are untouched. -/
theorem writeBytes_scalar_frame (h : HostByteOrder) (n : Nat) (mem : Mem) (p v x : Nat)
    (hx : x < p ∨ p + n ≤ x) : writeBytes mem p (hostBytesOfScalar h n v) x = mem x :=
  writeBytes_frame _ _ _ _ (by rw [hostBytes_length]; exact hx)

/-- Every put entry leaves all bytes outside the w.bytes-wide window at
the target address unchanged. -/
theorem putOp_frame (w : IoWidth) (o : IoOrder) (a : IoAlign) (h : HostByteOrder)
    (mem : Mem) (p v x : Nat) (hx : x < p ∨ p + w.bytes ≤ x) :
    putOp w o a h mem p v x = mem x := by
  rw [putOp_collapse]
  cases w
  · cases o
    · exact writeBytes_scalar_frame h 1 mem p _ x hx
    · exact writeBytes_scalar_frame h 1 mem p _ x hx
    · exact writeBytes_scalar_frame h 1 mem p _ x hx
  · cases o
    · exact writeBytes_scalar_frame h 2 mem p _ x hx
    · exact writeBytes_scalar_frame h 2 mem p _ x hx
    · exact writeBytes_scalar_frame h 2 mem p _ x hx
  · cases o
    · exact writeBytes_scalar_frame h 4 mem p _ x hx
    · exact writeBytes_scalar_frame h 4 mem p _ x hx
    · exact writeBytes_scalar_frame h 4 mem p _ x hx
  · cases o
    · exact writeBytes_scalar_frame h 8 mem p _ x hx
    · exact writeBytes_scalar_frame h 8 mem p _ x hx
    · exact writeBytes_scalar_frame h 8 mem p _ x hx

/-- For a power-of-two size the mask test of IoIsAligned agrees with the
modulo characterisation. -/
theorem isAligned_pow_iff (p k : Nat) : IoIsAligned p (2 ^ k) = true ↔ p % 2 ^ k = 0 := by
  unfold IoIsAligned
  rw [Nat.and_pow_two_sub_one_eq_mod]
  simp

/-! The ten claims. -/

/-- Claim C1 (round-trip identity): for every width, every target byte
order (native, little, big), every alignment mode (aligned, unaligned,
maybe-aligned, default) and both pointer modes, on either host byte
order, putting a representable value v at an address and getting it back
with the matching accessor returns exactly v; likewise a cursor write
followed by a read at the written address. -/
theorem c1_round_trip (w : IoWidth) (o : IoOrder) (a : IoAlign) (h : HostByteOrder)
    (mem : Mem) (p v : Nat) (hv : v < 2 ^ (8 * w.bytes)) :
    getOp w o a h (putOp w o a h mem p v) p = v ∧
      (readOp w o a h (writeOp w o a h mem p v).1 p).1 = v := by
  refine ⟨getOp_putOp w o a h mem p v hv, ?_⟩
  rw [readOp_val, writeOp_mem]
  exact getOp_putOp w o a h mem p v hv

/-- Witness for C1 at a concrete entry of the matrix. -/
theorem c1_round_trip_witness :
    (0x12345678 : Nat) < 2 ^ (8 * IoWidth.bytes .w32) ∧
      (getOp .w32 .big .unaligned .little
          (putOp .w32 .big .unaligned .little zeroMem 5 0x12345678) 5 = 0x12345678 ∧
        (readOp .w32 .big .unaligned .little
            (writeOp .w32 .big .unaligned .little zeroMem 5 0x12345678).1 5).1 = 0x12345678) :=
  ⟨by decide, c1_round_trip .w32 .big .unaligned .little zeroMem 5 0x12345678 (by decide)⟩

/-- Claim C2 (maybe-aligned dispatch): each maybe-aligned accessor is
exactly the IoIsAligned-tested dispatch between the aligned and the
unaligned forms, and for width 8 it is always the aligned form. -/
theorem c2_maybe_aligned_dispatch (h : HostByteOrder) (mem : Mem) (p v : Nat) :
    (IoGetMaybeAligned16 h mem p =
        if IoIsAligned p 2 then IoGetAligned16 h mem p else IoGetUnaligned16 h mem p) ∧
      (IoGetMaybeAligned32 h mem p =
        if IoIsAligned p 4 then IoGetAligned32 h mem p else IoGetUnaligned32 h mem p) ∧
      (IoGetMaybeAligned64 h mem p =
        if IoIsAligned p 8 then IoGetAligned64 h mem p else IoGetUnaligned64 h mem p) ∧
      (IoPutMaybeAligned16 h mem p v =
        if IoIsAligned p 2 then IoPutAligned16 h mem p v else IoPutUnaligned16 h mem p v) ∧
      (IoPutMaybeAligned32 h mem p v =
        if IoIsAligned p 4 then IoPutAligned32 h mem p v else IoPutUnaligned32 h mem p v) ∧
      (IoPutMaybeAligned64 h mem p v =
        if IoIsAligned p 8 then IoPutAligned64 h mem p v else IoPutUnaligned64 h mem p v) ∧
      IoGetMaybeAligned8 h mem p = IoGetAligned8 h mem p ∧
      IoPutMaybeAligned8 h mem p v = IoPutAligned8 h mem p v :=
  ⟨rfl, rfl, rfl, rfl, rfl, rfl, rfl, rfl⟩

/-- Claim C3 (cursor advance): every cursor-advancing entry of the
matrix advances the cursor by exactly w.bytes, independently of the
value; the value read, and the memory written, are those of the
corresponding get/put at the cursor's original address. -/
theorem c3_cursor_advance (w : IoWidth) (o : IoOrder) (a : IoAlign) (h : HostByteOrder)
    (mem : Mem) (p v : Nat) :
    (readOp w o a h mem p).2.2 = p + w.bytes ∧
      (readOp w o a h mem p).1 = getOp w o a h mem p ∧
      (writeOp w o a h mem p v).2 = p + w.bytes ∧
      (writeOp w o a h mem p v).1 = putOp w o a h mem p v :=
  ⟨readOp_cursor w o a h mem p, readOp_val w o a h mem p,
    writeOp_cursor w o a h mem p v, writeOp_mem w o a h mem p v⟩

/-- Claim C4 (endian-layer composition): every little/big-endian get is
the matching to-host swap applied to the corresponding base get, and
every little/big-endian put is the corresponding base put of the
from-host-swapped value (identity at width 8); the endian layer adds no
alignment test or memory access of its own. -/
theorem c4_endian_composition (h : HostByteOrder) (mem : Mem) (p v : Nat) :
    (IoLittleEndianGet8 h mem p = IoGet8 h mem p) ∧
      (IoLittleEndianGet16 h mem p = ByteOrderSwap16LittleToHost h (IoGet16 h mem p)) ∧
      (IoLittleEndianGet32 h mem p = ByteOrderSwap32LittleToHost h (IoGet32 h mem p)) ∧
      (IoLittleEndianGet64 h mem p = ByteOrderSwap64LittleToHost h (IoGet64 h mem p)) ∧
      (IoLittleEndianPut8 h mem p v = IoPut8 h mem p v) ∧
      (IoLittleEndianPut16 h mem p v = IoPut16 h mem p (ByteOrderSwap16HostToLittle h v)) ∧
      (IoLittleEndianPut32 h mem p v = IoPut32 h mem p (ByteOrderSwap32HostToLittle h v)) ∧
      (IoLittleEndianPut64 h mem p v = IoPut64 h mem p (ByteOrderSwap64HostToLittle h v)) ∧
      (IoLittleEndianGetAligned8 h mem p = IoGetAligned8 h mem p) ∧
      (IoLittleEndianGetAligned16 h mem p = ByteOrderSwap16LittleToHost h (IoGetAligned16 h mem p)) ∧
      (IoLittleEndianGetAligned32 h mem p = ByteOrderSwap32LittleToHost h (IoGetAligned32 h mem p)) ∧
      (IoLittleEndianGetAligned64 h mem p = ByteOrderSwap64LittleToHost h (IoGetAligned64 h mem p)) ∧
      (IoLittleEndianPutAligned8 h mem p v = IoPutAligned8 h mem p v) ∧
      (IoLittleEndianPutAligned16 h mem p v = IoPutAligned16 h mem p (ByteOrderSwap16HostToLittle h v)) ∧
      (IoLittleEndianPutAligned32 h mem p v = IoPutAligned32 h mem p (ByteOrderSwap32HostToLittle h v)) ∧
      (IoLittleEndianPutAligned64 h mem p v = IoPutAligned64 h mem p (ByteOrderSwap64HostToLittle h v)) ∧
      (IoLittleEndianGetUnaligned8 h mem p = IoGetUnaligned8 h mem p) ∧
      (IoLittleEndianGetUnaligned16 h mem p = ByteOrderSwap16LittleToHost h (IoGetUnaligned16 h mem p)) ∧
      (IoLittleEndianGetUnaligned32 h mem p = ByteOrderSwap32LittleToHost h (IoGetUnaligned32 h mem p)) ∧
      (IoLittleEndianGetUnaligned64 h mem p = ByteOrderSwap64LittleToHost h (IoGetUnaligned64 h mem p)) ∧
      (IoLittleEndianPutUnaligned8 h mem p v = IoPutUnaligned8 h mem p v) ∧
      (IoLittleEndianPutUnaligned16 h mem p v = IoPutUnaligned16 h mem p (ByteOrderSwap16HostToLittle h v)) ∧
      (IoLittleEndianPutUnaligned32 h mem p v = IoPutUnaligned32 h mem p (ByteOrderSwap32HostToLittle h v)) ∧
      (IoLittleEndianPutUnaligned64 h mem p v = IoPutUnaligned64 h mem p (ByteOrderSwap64HostToLittle h v)) ∧
      (IoBigEndianGet8 h mem p = IoGet8 h mem p) ∧
      (IoBigEndianGet16 h mem p = ByteOrderSwap16BigToHost h (IoGet16 h mem p)) ∧
      (IoBigEndianGet32 h mem p = ByteOrderSwap32BigToHost h (IoGet32 h mem p)) ∧
      (IoBigEndianGet64 h mem p = ByteOrderSwap64BigToHost h (IoGet64 h mem p)) ∧
      (IoBigEndianPut8 h mem p v = IoPut8 h mem p v) ∧
      (IoBigEndianPut16 h mem p v = IoPut16 h mem p (ByteOrderSwap16HostToBig h v)) ∧
      (IoBigEndianPut32 h mem p v = IoPut32 h mem p (ByteOrderSwap32HostToBig h v)) ∧
      (IoBigEndianPut64 h mem p v = IoPut64 h mem p (ByteOrderSwap64HostToBig h v)) ∧
      (IoBigEndianGetAligned8 h mem p = IoGetAligned8 h mem p) ∧
      (IoBigEndianGetAligned16 h mem p = ByteOrderSwap16BigToHost h (IoGetAligned16 h mem p)) ∧
      (IoBigEndianGetAligned32 h mem p = ByteOrderSwap32BigToHost h (IoGetAligned32 h mem p)) ∧
      (IoBigEndianGetAligned64 h mem p = ByteOrderSwap64BigToHost h (IoGetAligned64 h mem p)) ∧
      (IoBigEndianPutAligned8 h mem p v = IoPutAligned8 h mem p v) ∧
      (IoBigEndianPutAligned16 h mem p v = IoPutAligned16 h mem p (ByteOrderSwap16HostToBig h v)) ∧
      (IoBigEndianPutAligned32 h mem p v = IoPutAligned32 h mem p (ByteOrderSwap32HostToBig h v)) ∧
      (IoBigEndianPutAligned64 h mem p v = IoPutAligned64 h mem p (ByteOrderSwap64HostToBig h v)) ∧
      (IoBigEndianGetUnaligned8 h mem p = IoGetUnaligned8 h mem p) ∧
      (IoBigEndianGetUnaligned16 h mem p = ByteOrderSwap16BigToHost h (IoGetUnaligned16 h mem p)) ∧
      (IoBigEndianGetUnaligned32 h mem p = ByteOrderSwap32BigToHost h (IoGetUnaligned32 h mem p)) ∧
      (IoBigEndianGetUnaligned64 h mem p = ByteOrderSwap64BigToHost h (IoGetUnaligned64 h mem p)) ∧
      (IoBigEndianPutUnaligned8 h mem p v = IoPutUnaligned8 h mem p v) ∧
      (IoBigEndianPutUnaligned16 h mem p v = IoPutUnaligned16 h mem p (ByteOrderSwap16HostToBig h v)) ∧
      (IoBigEndianPutUnaligned32 h mem p v = IoPutUnaligned32 h mem p (ByteOrderSwap32HostToBig h v)) ∧
      (IoBigEndianPutUnaligned64 h mem p v = IoPutUnaligned64 h mem p (ByteOrderSwap64HostToBig h v)) :=
  ⟨rfl, rfl, rfl, rfl, rfl, rfl, rfl, rfl, rfl, rfl, rfl, rfl, rfl, rfl, rfl, rfl, rfl, rfl, rfl, rfl, rfl, rfl, rfl, rfl, rfl, rfl, rfl, rfl, rfl, rfl, rfl, rfl, rfl, rfl, rfl, rfl, rfl, rfl, rfl, rfl, rfl, rfl, rfl, rfl, rfl, rfl, rfl, rfl⟩

/-- Claim C5 (concrete scenario): on a little-endian host, BigEndianPut32
of 0x12345678 into a zeroed buffer leaves bytes 0x12 0x34 0x56 0x78 in
order, and LittleEndianGet32 of that buffer returns 0x78563412. -/
theorem c5_concrete_scenario :
    (IoBigEndianPut32 .little zeroMem 0 0x12345678 0 = 0x12 ∧
        IoBigEndianPut32 .little zeroMem 0 0x12345678 1 = 0x34 ∧
        IoBigEndianPut32 .little zeroMem 0 0x12345678 2 = 0x56 ∧
        IoBigEndianPut32 .little zeroMem 0 0x12345678 3 = 0x78) ∧
      IoLittleEndianGet32 .little (IoBigEndianPut32 .little zeroMem 0 0x12345678) 0 =
        0x78563412 := by
  decide

/-- Claim C6 (unqualified default aliases): the unqualified 8-bit forms
are the Aligned8 forms and the unqualified 16/32/64-bit forms are the
MaybeAligned forms, for every address, cursor and value. -/
theorem c6_unqualified_aliases (h : HostByteOrder) (mem : Mem) (p v : Nat) :
    (IoGet8 h mem p = IoGetAligned8 h mem p ∧
        IoPut8 h mem p v = IoPutAligned8 h mem p v ∧
        IoRead8 h mem p = IoReadAligned8 h mem p ∧
        IoWrite8 h mem p v = IoWriteAligned8 h mem p v) ∧
      (IoGet16 h mem p = IoGetMaybeAligned16 h mem p ∧
        IoPut16 h mem p v = IoPutMaybeAligned16 h mem p v ∧
        IoRead16 h mem p = IoReadMaybeAligned16 h mem p ∧
        IoWrite16 h mem p v = IoWriteMaybeAligned16 h mem p v) ∧
      (IoGet32 h mem p = IoGetMaybeAligned32 h mem p ∧
        IoPut32 h mem p v = IoPutMaybeAligned32 h mem p v ∧
        IoRead32 h mem p = IoReadMaybeAligned32 h mem p ∧
        IoWrite32 h mem p v = IoWriteMaybeAligned32 h mem p v) ∧
      (IoGet64 h mem p = IoGetMaybeAligned64 h mem p ∧
        IoPut64 h mem p v = IoPutMaybeAligned64 h mem p v ∧
        IoRead64 h mem p = IoReadMaybeAligned64 h mem p ∧
        IoWrite64 h mem p v = IoWriteMaybeAligned64 h mem p v) :=
  ⟨⟨rfl, rfl, rfl, rfl⟩, ⟨rfl, rfl, rfl, rfl⟩, ⟨rfl, rfl, rfl, rfl⟩, ⟨rfl, rfl, rfl, rfl⟩⟩

/-- Claim C7 (alignment test correctness): for a power-of-two size the
bit test of IoIsAligned returns true exactly when the address value is a
multiple of the size. -/
theorem c7_is_aligned_mod (p size : Nat) (hpow : ∃ k, size = 2 ^ k) :
    IoIsAligned p size = true ↔ p % size = 0 := by
  obtain ⟨k, rfl⟩ := hpow
  exact isAligned_pow_iff p k

/-- Witness for C7 at a concrete aligned address. -/
theorem c7_is_aligned_mod_witness :
    (∃ k, (4 : Nat) = 2 ^ k) ∧ (IoIsAligned 12 4 = true ↔ 12 % 4 = 0) :=
  ⟨⟨2, by decide⟩, c7_is_aligned_mod 12 4 ⟨2, by decide⟩⟩

/-- Claim C8 (8-bit invariance): in every alignment variant, the 8-bit
little-endian, big-endian and plain get/put/read/write forms are
identical: no byte swap is applied at width 8. -/
theorem c8_eight_bit_invariance (h : HostByteOrder) (mem : Mem) (p v : Nat) :
    (IoLittleEndianGet8 h mem p = IoGet8 h mem p ∧
        IoBigEndianGet8 h mem p = IoGet8 h mem p ∧
        IoLittleEndianPut8 h mem p v = IoPut8 h mem p v ∧
        IoBigEndianPut8 h mem p v = IoPut8 h mem p v ∧
        IoLittleEndianRead8 h mem p = IoRead8 h mem p ∧
        IoBigEndianRead8 h mem p = IoRead8 h mem p ∧
        IoLittleEndianWrite8 h mem p v = IoWrite8 h mem p v ∧
        IoBigEndianWrite8 h mem p v = IoWrite8 h mem p v) ∧
      (IoLittleEndianGetAligned8 h mem p = IoGetAligned8 h mem p ∧
        IoBigEndianGetAligned8 h mem p = IoGetAligned8 h mem p ∧
        IoLittleEndianPutAligned8 h mem p v = IoPutAligned8 h mem p v ∧
        IoBigEndianPutAligned8 h mem p v = IoPutAligned8 h mem p v ∧
        IoLittleEndianReadAligned8 h mem p = IoReadAligned8 h mem p ∧
        IoBigEndianReadAligned8 h mem p = IoReadAligned8 h mem p ∧
        IoLittleEndianWriteAligned8 h mem p v = IoWriteAligned8 h mem p v ∧
        IoBigEndianWriteAligned8 h mem p v = IoWriteAligned8 h mem p v) ∧
      (IoLittleEndianGetUnaligned8 h mem p = IoGetUnaligned8 h mem p ∧
        IoBigEndianGetUnaligned8 h mem p = IoGetUnaligned8 h mem p ∧
        IoLittleEndianPutUnaligned8 h mem p v = IoPutUnaligned8 h mem p v ∧
        IoBigEndianPutUnaligned8 h mem p v = IoPutUnaligned8 h mem p v ∧
        IoLittleEndianReadUnaligned8 h mem p = IoReadUnaligned8 h mem p ∧
        IoBigEndianReadUnaligned8 h mem p = IoReadUnaligned8 h mem p ∧
        IoLittleEndianWriteUnaligned8 h mem p v = IoWriteUnaligned8 h mem p v ∧
        IoBigEndianWriteUnaligned8 h mem p v = IoWriteUnaligned8 h mem p v) :=
  ⟨⟨rfl, rfl, rfl, rfl, rfl, rfl, rfl, rfl⟩,
    ⟨rfl, rfl, rfl, rfl, rfl, rfl, rfl, rfl⟩,
    ⟨rfl, rfl, rfl, rfl, rfl, rfl, rfl, rfl⟩⟩

/-- Claim C9 (frame effect): every put and every cursor write, in every
variant, leaves all bytes outside the w.bytes-wide window at the target
address unchanged, and every cursor read returns the memory unchanged
(gets take memory only as input and cannot modify it). -/
theorem c9_frame_effect (w : IoWidth) (o : IoOrder) (a : IoAlign) (h : HostByteOrder)
    (mem : Mem) (p v : Nat) :
    (∀ x, x < p ∨ p + w.bytes ≤ x →
        putOp w o a h mem p v x = mem x ∧ (writeOp w o a h mem p v).1 x = mem x) ∧
      (readOp w o a h mem p).2.1 = mem := by
  refine ⟨fun x hx => ⟨putOp_frame w o a h mem p v x hx, ?_⟩, readOp_mem w o a h mem p⟩
  rw [writeOp_mem]
  exact putOp_frame w o a h mem p v x hx

/-- Witness for C9 at a concrete entry and a byte left of the window. -/
theorem c9_frame_effect_witness :
    ((1 : Nat) < 2 ∨ 2 + IoWidth.bytes .w16 ≤ 1) ∧
      (putOp .w16 .big .unqualified .little zeroMem 2 0xABCD 1 = zeroMem 1 ∧
        (writeOp .w16 .big .unqualified .little zeroMem 2 0xABCD).1 1 = zeroMem 1) :=
  ⟨Or.inl (by decide),
    (c9_frame_effect .w16 .big .unqualified .little zeroMem 2 0xABCD).1 1 (Or.inl (by decide))⟩

/-- Claim C10 (alignment monotonicity): alignment to a larger power of
two implies alignment to any power of two dividing it, and every pointer
is 1-byte aligned. -/
theorem c10_alignment_mono :
    (∀ p a b : Nat, (∃ i, a = 2 ^ i) → (∃ j, b = 2 ^ j) → a ∣ b →
        IoIsAligned p b = true → IoIsAligned p a = true) ∧
      ∀ p : Nat, IoIsAligned p 1 = true := by
  constructor
  · rintro p a b ⟨i, rfl⟩ ⟨j, rfl⟩ hab hb
    have hpj : p % 2 ^ j = 0 := (isAligned_pow_iff p j).mp hb
    have hdvd : 2 ^ i ∣ p := dvd_trans hab (Nat.dvd_of_mod_eq_zero hpj)
    exact (isAligned_pow_iff p i).mpr (Nat.dvd_iff_mod_eq_zero.mp hdvd)
  · intro p
    have := (isAligned_pow_iff p 0).mpr (by simp [Nat.mod_one])
    simpa using this

/-- Witness for C10: 4-byte alignment of address 8 implies 2-byte
alignment. -/
theorem c10_alignment_mono_witness :
    ((∃ i, (2 : Nat) = 2 ^ i) ∧ (∃ j, (4 : Nat) = 2 ^ j) ∧ (2 : Nat) ∣ 4 ∧
        IoIsAligned 8 4 = true) ∧ IoIsAligned 8 2 = true :=
  ⟨⟨⟨1, by decide⟩, ⟨2, by decide⟩, ⟨2, rfl⟩, by decide⟩,
    c10_alignment_mono.1 8 2 4 ⟨1, by decide⟩ ⟨2, by decide⟩ ⟨2, rfl⟩ (by decide)⟩
